import Mathlib

/-!
Verification of the Box Model Sentinel CSS analysis engine.

The development shallowly embeds the JavaScript source of the engine:
the CSS parser (`parseRules` in the parser module), the threshold policy
(`LintEngine.shouldReportFixedValue`), the twelve rule detectors, the
issue-to-visualizer mapping functions, the text formatter and the twelve
ASCII diagram generators together with the `AsciiVisualizer.generate`
entry point.

Text is represented as `List Char` (called `Str` below); JavaScript
strings are sequences of UTF-16 code units, and on the engine's data
(CSS text, selector names, diagram glyphs) the code-point view used
here coincides with the source semantics.  JavaScript numbers are
modelled as exact rationals (`ℚ`): every numeric literal the engine
parses is a short decimal, which floats represent exactly, and `NaN` /
non-finite values are modelled by `Option ℚ` (`none` = not finite).
-/

set_option maxRecDepth 4000

namespace BMS

/-- Character list standing for a JavaScript string. -/
abbrev Str := List Char

/-- Coerce a Lean string literal to the `Str` representation. -/
def str (s : String) : Str := s.data

/-- JavaScript `\s` / `trim` whitespace for the ASCII range (space, tab,
line feed, vertical tab, form feed, carriage return). -/
def isWsChar (c : Char) : Bool :=
  c = ' ' || c = '\t' || c = '\n' || c = '\x0b' || c = '\x0c' || c = '\r'

/-- ASCII lower-casing, the fragment of JS `toLowerCase` exercised by the
engine (property names, selectors, mode strings are ASCII). -/
def lcChar (c : Char) : Char :=
  if 'A' ≤ c ∧ c ≤ 'Z' then Char.ofNat (c.toNat + 32) else c

/-- Lower-case a whole string (JS `s.toLowerCase()`). -/
def lcStr (s : Str) : Str := s.map lcChar

/-- JS `String.prototype.trim`: drop leading and trailing whitespace. -/
def jsTrim (s : Str) : Str :=
  (s.dropWhile isWsChar).reverse.dropWhile isWsChar |>.reverse

/-- Decimal digit test (JS `\d`). -/
def isDigitCh (c : Char) : Bool := '0' ≤ c ∧ c ≤ '9'

/-- JS regex word character (`\w`): letters, digits, underscore. -/
def isWordCh (c : Char) : Bool :=
  ('A' ≤ c ∧ c ≤ 'Z') || ('a' ≤ c ∧ c ≤ 'z') || isDigitCh c || c = '_'

/-- Case-insensitive character comparison (ASCII). -/
def eqCI (a b : Char) : Bool := lcChar a = lcChar b

/-- Does `hay` start with `needle` (character-exact)? -/
def startsWithStr : Str → Str → Bool
  | _, [] => true
  | [], _ :: _ => false
  | h :: hs, n :: ns => h = n && startsWithStr hs ns

/-- Does `hay` start with `needle`, comparing case-insensitively? -/
def startsWithCI : Str → Str → Bool
  | _, [] => true
  | [], _ :: _ => false
  | h :: hs, n :: ns => eqCI h n && startsWithCI hs ns

/-- JS `hay.includes(needle)`: substring search. -/
def strHas (hay needle : Str) : Bool :=
  match hay with
  | [] => needle.isEmpty
  | _ :: rest => startsWithStr hay needle || strHas rest needle

/-- Case-insensitive substring search, the semantics of testing a
`/word/i` regex with no metacharacters. -/
def strHasCI (hay needle : Str) : Bool :=
  match hay with
  | [] => needle.isEmpty
  | _ :: rest => startsWithCI hay needle || strHasCI rest needle

/-- Index of the first occurrence of `needle` in `hay`
(JS `indexOf`, as an `Option`). -/
def findSub (hay needle : Str) : Option Nat :=
  match hay with
  | [] => if needle.isEmpty then some 0 else none
  | _ :: rest =>
    if startsWithStr hay needle then some 0
    else (findSub rest needle).map (· + 1)

/-- Split `hay` at the first occurrence of `needle`, returning the part
before the occurrence and the part after it. -/
def splitAtSub (hay needle : Str) : Option (Str × Str) :=
  match hay with
  | [] => if needle.isEmpty then some ([], []) else none
  | c :: rest =>
    if startsWithStr hay needle then some ([], hay.drop needle.length)
    else (splitAtSub rest needle).map (fun p => (c :: p.1, p.2))

/-- JS `s.replace(needle, '')` for a plain-string pattern: remove the
first occurrence of `needle`, if any. -/
def removeFirst (hay needle : Str) : Str :=
  match splitAtSub hay needle with
  | some (pre, post) => pre ++ post
  | none => hay

/-- Split a string on a separator character; always returns at least one
(possibly empty) piece, like JS `split`. -/
def splitOnCh (sep : Char) : Str → List Str
  | [] => [[]]
  | c :: rest =>
    if c = sep then [] :: splitOnCh sep rest
    else
      match splitOnCh sep rest with
      | [] => [[c]]
      | p :: ps => (c :: p) :: ps

/-- Parse a digit run as a natural number (JS `parseInt(digits, 10)`). -/
def digitsToNat (s : Str) : Nat :=
  s.foldl (fun acc c => acc * 10 + (c.toNat - 48)) 0

/-- Exact value of `parseFloat` on `int` + optional `.frac` digit strings. -/
def decToRat (intPart fracPart : Str) : ℚ :=
  mkRat (digitsToNat intPart * 10 ^ fracPart.length + digitsToNat fracPart)
    (10 ^ fracPart.length)

/-- Take the maximal run of decimal digits at the front of `s`, returning
the run and the remainder. -/
def spanDigits (s : Str) : Str × Str :=
  match s with
  | [] => ([], [])
  | c :: rest =>
    if isDigitCh c then
      let (run, r) := spanDigits rest
      (c :: run, r)
    else ([], s)

end BMS

namespace BMS

/-! ## Regex-style matchers

Each matcher implements, by direct character scanning, the exact JS
regular expression named in its doc comment, as used by the engine. -/

/-- Word-boundary-aware scan for `/\b\d+px\b/` (`ci` selects the `i`
flag).  `prevWord` records whether the previous character was a word
character. -/
def hasPxTokenAux (ci : Bool) (prevWord : Bool) : Str → Bool
  | [] => false
  | c :: rest =>
    (if !prevWord && isDigitCh c then
      let (run, r1) := spanDigits rest
      let _ := run
      match r1 with
      | p :: x :: r2 =>
        (if ci then eqCI p 'p' && eqCI x 'x' else (p = 'p' && x = 'x')) &&
          (match r2 with
           | [] => true
           | d :: _ => !isWordCh d)
      | _ => false
    else false) ||
    hasPxTokenAux ci (isWordCh c) rest

/-- Test of `/\b\d+px\b/i` against a declaration value. -/
def hasPxToken (s : Str) : Bool := hasPxTokenAux true false s

/-- Test of `/\b\d+px\b/` (case-sensitive, as in `detectGridRigidity`). -/
def hasPxTokenCS (s : Str) : Bool := hasPxTokenAux false false s

/-- First match of `/(\d+(?:\.\d+)?)px/i`, returning the captured number
(`parseFloat` of the capture), i.e. the semantics of
`/(\d+(?:\.\d+)?)px/i.exec(v)`. -/
def firstPxRat : Str → Option ℚ
  | [] => none
  | c :: rest =>
    if isDigitCh c then
      let (run, r1) := spanDigits rest
      let intRun := c :: run
      match r1 with
      | '.' :: d :: r2 =>
        if isDigitCh d then
          let (frac, r3) := spanDigits r2
          match r3 with
          | p :: x :: _ =>
            if eqCI p 'p' && eqCI x 'x' then some (decToRat intRun (d :: frac))
            else firstPxRat rest
          | _ => firstPxRat rest
        else
          match r1 with
          | p :: x :: _ =>
            if eqCI p 'p' && eqCI x 'x' then some (decToRat intRun [])
            else firstPxRat rest
          | _ => firstPxRat rest
      | p :: x :: _ =>
        if eqCI p 'p' && eqCI x 'x' then some (decToRat intRun [])
        else firstPxRat rest
      | _ => firstPxRat rest
    else firstPxRat rest

/-- First match of `/(\d+)px/i`, returning `parseInt` of the capture
(used for breakpoint-width comparisons). -/
def firstPxNat : Str → Option Nat
  | [] => none
  | c :: rest =>
    if isDigitCh c then
      let (run, r1) := spanDigits rest
      match r1 with
      | p :: x :: _ =>
        if eqCI p 'p' && eqCI x 'x' then some (digitsToNat (c :: run))
        else firstPxNat rest
      | _ => firstPxNat rest
    else firstPxNat rest

/-- First match of `/(\d+)\s*px/i` against a media condition, returning
`parseInt` of the captured digits. -/
def condPxNat : Str → Option Nat
  | [] => none
  | c :: rest =>
    if isDigitCh c then
      let (run, r1) := spanDigits rest
      let afterWs := r1.dropWhile isWsChar
      match afterWs with
      | p :: x :: _ =>
        if eqCI p 'p' && eqCI x 'x' then some (digitsToNat (c :: run))
        else condPxNat rest
      | _ => condPxNat rest
    else condPxNat rest

/-- One step of the global matcher for `/(\d+(?:\.\d+)?)px/ig`: the
captured number of the first match, paired with the index just past the
match (the regex `lastIndex`), measured from the start of the argument. -/
def pxMatchLen : Str → Option (ℚ × Nat)
  | [] => none
  | c :: rest =>
    if isDigitCh c then
      let (run, r1) := spanDigits rest
      let intRun := c :: run
      match r1 with
      | '.' :: d :: r2 =>
        if isDigitCh d then
          let (frac, r3) := spanDigits r2
          match r3 with
          | p :: x :: _ =>
            if eqCI p 'p' && eqCI x 'x' then
              some (decToRat intRun (d :: frac), intRun.length + 2 + frac.length + 2)
            else (pxMatchLen rest).map (fun q => (q.1, q.2 + 1))
          | _ => (pxMatchLen rest).map (fun q => (q.1, q.2 + 1))
        else
          match r1 with
          | p :: x :: _ =>
            if eqCI p 'p' && eqCI x 'x' then
              some (decToRat intRun [], intRun.length + 2)
            else (pxMatchLen rest).map (fun q => (q.1, q.2 + 1))
          | _ => (pxMatchLen rest).map (fun q => (q.1, q.2 + 1))
      | p :: x :: _ =>
        if eqCI p 'p' && eqCI x 'x' then
          some (decToRat intRun [], intRun.length + 2)
        else (pxMatchLen rest).map (fun q => (q.1, q.2 + 1))
      | _ => (pxMatchLen rest).map (fun q => (q.1, q.2 + 1))
    else (pxMatchLen rest).map (fun q => (q.1, q.2 + 1))

/-- Fuel-driven global-match loop for `pxMatchLen`. -/
def allPxRatsAux (fuel : Nat) (s : Str) : List ℚ :=
  match fuel with
  | 0 => []
  | fuel + 1 =>
    match pxMatchLen s with
    | none => []
    | some (q, n) => q :: allPxRatsAux fuel (s.drop n)

/-- All matches of `/(\d+(?:\.\d+)?)px/ig` (global), in order, as the
engine's `extractNums` collects them; `pxMatchLen_pos` shows every match
consumes at least one character, so fuel equal to the input length never
runs out. -/
def allPxRats (s : Str) : List ℚ := allPxRatsAux s.length s

end BMS

namespace BMS

/-! ## CSS parser (`src/extension` parser module)

Faithful embedding of `stripComments`, `parseDeclarations` and
`parseRules`.  The flat-rule regex `/([^{]+)\{([^}]*)\}/g` is realised by
the equivalent deterministic scan: skip leading `\x7b` characters, read
the selector up to the next `\x7b`, read the body up to the next `\x7d`,
and resume after it (leftmost-match semantics of the global regex). -/

/-- Fuel-driven comment-stripping loop; each iteration removes one
comment and recurses on the text after it, which `splitAtSub_len` shows
is strictly shorter, so fuel equal to the input length never runs out. -/
def stripCommentsAux (fuel : Nat) (s : Str) : Str :=
  match fuel with
  | 0 => s
  | fuel + 1 =>
    match splitAtSub s (str "/*") with
    | none => s
    | some (pre, afterOpen) =>
      match splitAtSub afterOpen (str "*/") with
      | none => s
      | some (_, afterClose) => pre ++ stripCommentsAux fuel afterClose

/-- Strip `/* ... */` comments (non-greedy): remove each comment from the
first `/*` to the nearest following `*/`; an unterminated `/*` is left in
place, exactly as the regex `/\/\*[\s\S]*?\*\//g` behaves. -/
def stripComments (s : Str) : Str := stripCommentsAux s.length s

/-- A single parsed declaration map entry list: later writes overwrite
earlier ones (JS object assignment). -/
def updAssoc (m : List (Str × Str)) (k v : Str) : List (Str × Str) :=
  match m with
  | [] => [(k, v)]
  | (k0, v0) :: rest => if k0 = k then (k0, v) :: rest else (k0, v0) :: updAssoc rest k v

/-- Lookup in a declarations map (JS `obj[key]`, `none` = `undefined`). -/
def getDecl (m : List (Str × Str)) (k : Str) : Option Str :=
  match m with
  | [] => none
  | (k0, v0) :: rest => if k0 = k then some v0 else getDecl rest k

/-- `parseDeclarations`: split the block on `;`, trim fragments, split
each on the first `:`, lower-case the key, trim the value; fragments that
are empty or lack a colon are skipped; duplicate keys overwrite. -/
def parseDeclarations (block : Str) : List (Str × Str) :=
  (splitOnCh ';' block).foldl
    (fun obj line =>
      let line := jsTrim line
      if line.isEmpty then obj
      else
        match findSub line [':'] with
        | none => obj
        | some i =>
          let k := lcStr (jsTrim (line.take i))
          let v := jsTrim (line.drop (i + 1))
          updAssoc obj k v)
    []

/-- A parsed rule: selector, declarations, and the enclosing at-rule
(`none` for base rules, `some condition` for rules inside an `@media`
block). -/
structure Rule where
  selector : Str
  declarations : List (Str × Str)
  atRule : Option Str
  deriving Repr, DecidableEq

/-- Brace-depth scan of `@media` block bodies: consume characters,
incrementing depth on `\x7b` and decrementing on `\x7d`, until depth
returns to zero or the input ends; returns the consumed prefix (up to and
including the closing brace if one was found) and the remainder. -/
def scanDepth (depth : Nat) : Str → Str × Str
  | [] => ([], [])
  | c :: rest =>
    let d2 := if c = '\x7b' then depth + 1 else if c = '\x7d' then depth - 1 else depth
    if d2 = 0 then ([c], rest)
    else (c :: (scanDepth d2 rest).1, (scanDepth d2 rest).2)

/-- An extracted `@media` block: full source text, trimmed condition,
and inner body. -/
structure MediaBlock where
  full : Str
  condition : Str
  body : Str
  deriving Repr, DecidableEq

/-- Extract every `@media` block: locate `@media`, take the condition up
to the next `\x7b` (trimmed), then brace-depth-scan the body; the body is
the scanned text minus its final character (`s.slice(braceOpen + 1, j - 1)`
in the source, which also covers the unterminated case where the scan
stops at end-of-string).  Scanning resumes after the block; if no `\x7b`
follows the `@media` header, extraction stops (the source breaks out of
its loop). -/
def extractMediaBlocksAux (fuel : Nat) (s : Str) : List MediaBlock :=
  match fuel with
  | 0 => []
  | fuel + 1 =>
    match splitAtSub s (str "@media") with
    | none => []
    | some (_, afterAt) =>
      match splitAtSub afterAt [ '\x7b' ] with
      | none => []
      | some (condRaw, afterBrace) =>
        let taken := (scanDepth 1 afterBrace).1
        let body := taken.dropLast
        let full := str "@media" ++ condRaw ++ [ '\x7b' ] ++ taken
        { full := full, condition := jsTrim condRaw, body := body } ::
          extractMediaBlocksAux fuel (scanDepth 1 afterBrace).2

/-- Driver for `extractMediaBlocksAux`: each iteration consumes at least
the `@media` occurrence (`splitAtSub_len` and `scanDepth_snd_len` bound
the remainder strictly below the input length), so fuel equal to the
input length never runs out. -/
def extractMediaBlocks (s : Str) : List MediaBlock :=
  extractMediaBlocksAux s.length s

/-- One step of the flat-rule regex `/([^{]+)\{([^}]*)\}/g`: skip leading
`\x7b` characters, then the selector text runs to the next `\x7b` and the
body to the next `\x7d`; returns `(selectorText, bodyText, remainder)`
for the leftmost match, or `none` when the regex no longer matches. -/
def ruleMatch (s : Str) : Option (Str × Str × Str) :=
  let s1 := s.dropWhile (· = '\x7b')
  match splitAtSub s1 [ '\x7b' ] with
  | none => none
  | some (sel, afterBrace) =>
    if sel.isEmpty then none
    else
      match splitAtSub afterBrace [ '\x7d' ] with
      | none => none
      | some (body, rem) => some (sel, body, rem)

/-- Extract all flat `selector \x7b body \x7d` rules from a piece of
text, pairing the trimmed selector with its parsed declarations. -/
def extractFlatRulesAux (fuel : Nat) (s : Str) : List (Str × List (Str × Str)) :=
  match fuel with
  | 0 => []
  | fuel + 1 =>
    match ruleMatch s with
    | none => []
    | some (sel, body, rem) =>
      (jsTrim sel, parseDeclarations body) :: extractFlatRulesAux fuel rem

/-- Driver for `extractFlatRulesAux`: `ruleMatch_rem_lt` shows each match
strictly shrinks the remainder, so fuel equal to the input length never
runs out. -/
def extractFlatRules (s : Str) : List (Str × List (Str × Str)) :=
  extractFlatRulesAux s.length s

/-- `parseRules`: strip comments, extract `@media` blocks, delete each
block's full text from the document (first occurrence, as JS
`replace`), parse base rules from the remainder and inner rules from
each media body (tagged with the media condition). -/
def parseRules (raw : Str) : List Rule :=
  let s := stripComments raw
  let mbs := extractMediaBlocks s
  let rest := mbs.foldl (fun acc mb => removeFirst acc mb.full) s
  let baseRules := (extractFlatRules rest).map
    (fun p => { selector := p.1, declarations := p.2, atRule := none : Rule })
  let mediaRules := mbs.flatMap (fun mb =>
    (extractFlatRules mb.body).map
      (fun p => { selector := p.1, declarations := p.2, atRule := some mb.condition : Rule }))
  baseRules ++ mediaRules

end BMS

namespace BMS

/-! ## Lint engine configuration, issues and threshold policy
(`LintEngine` in `src/engine`) -/

/-- The engine configuration fields consulted by the detectors.
Thresholds are JS numbers; the engine reads them as
`this.config.fixedWidthThreshold || 0` etc., which is the identity on
every finite number except that `0` stays `0`, so finite thresholds are
modelled directly as rationals. -/
structure Config where
  mode : Str
  fixedWidthThreshold : ℚ
  fixedHeightThreshold : ℚ
  fixedSpacingThreshold : ℚ
  ignoreSelectors : List Str
  deriving Repr

/-- The constructor defaults of `LintEngine.config`. -/
def defaultConfig : Config :=
  { mode := str "strict"
    fixedWidthThreshold := 320
    fixedHeightThreshold := 320
    fixedSpacingThreshold := 24
    ignoreSelectors := [] }

/-- A detector-produced issue record.  Structured detectors set
`selector` and leave `lineNumber`/`startChar`/`endChar` unset (the
engine adds positions later in `mapIssuesToLines`); the text-fallback
path sets `lineNumber` and the range directly and has no selector. -/
structure Issue where
  issue : Str
  explanation : Str
  viewportImpact : Str
  severity : Str
  correction : Str
  property : Option Str := none
  value : Option Str := none
  selector : Option Str := none
  lineNumber : Option Nat := none
  startChar : Option Nat := none
  endChar : Option Nat := none
  deriving Repr, DecidableEq

/-- The five threshold kinds passed to `shouldReportFixedValue` by the
detectors (the JS `switch` also has an unreachable `default: return
true` for other strings, which no call site exercises). -/
inductive FixedKind where
  | width | height | spacing | flexBasis | gridTrack
  deriving Repr, DecidableEq

/-- `LintEngine.shouldReportFixedValue`: the centralized threshold
decision.  `v = none` models a non-finite numeric value (`NaN`). -/
def shouldReportFixedValue (cfg : Config) (kind : FixedKind) (v : Option ℚ) : Bool :=
  let mode := lcStr (if cfg.mode.isEmpty then str "strict" else cfg.mode)
  if mode = str "strict" then true
  else
    match v with
    | none => true
    | some x =>
      match kind with
      | .width | .gridTrack | .flexBasis => decide (x > cfg.fixedWidthThreshold)
      | .height => decide (x > cfg.fixedHeightThreshold)
      | .spacing => decide (x > cfg.fixedSpacingThreshold)

/-- The inline per-detector ignore test:
`this.config.ignoreSelectors.some(p => sel.toLowerCase().includes(p.toLowerCase()))`. -/
def selIgnored (cfg : Config) (sel : Str) : Bool :=
  cfg.ignoreSelectors.any (fun p => strHas (lcStr sel) (lcStr p))

/-- The upfront filter in `detectIssues`: non-blank ignore patterns are
lower-cased and any rule whose lower-cased selector contains one of them
is removed before the detectors run. -/
def upfrontFiltered (cfg : Config) (rules : List Rule) : List Rule :=
  let patterns := (cfg.ignoreSelectors.filter (fun s => !(jsTrim s).isEmpty)).map lcStr
  if patterns.isEmpty then rules
  else rules.filter (fun r => !patterns.any (fun p => strHas (lcStr r.selector) p))

end BMS

namespace BMS

/-! ## Further regex-style matchers used by individual detectors -/

/-- Test of `/\b100vw\b/i`. -/
def has100vwAux (prevWord : Bool) : Str → Bool
  | [] => false
  | c :: rest =>
    (!prevWord && startsWithCI (c :: rest) (str "100vw") &&
      (match (c :: rest).drop 5 with
       | [] => true
       | d :: _ => !isWordCh d)) ||
    has100vwAux (isWordCh c) rest

/-- Test of `/\b100vw\b/i` against a declaration value. -/
def has100vw (s : Str) : Bool := has100vwAux false s

/-- First capture of `/(\d+)px/i` as the raw digit string (the media
width-instability detector compares these captures as strings). -/
def firstPxDigits : Str → Option Str
  | [] => none
  | c :: rest =>
    if isDigitCh c then
      let (run, r1) := spanDigits rest
      match r1 with
      | p :: x :: _ =>
        if eqCI p 'p' && eqCI x 'x' then some (c :: run)
        else firstPxDigits rest
      | _ => firstPxDigits rest
    else firstPxDigits rest

/-- Core of the `flex: 0 0 <N>px` shorthand matchers: after a word
boundary, literal `0`, whitespace, `0`, whitespace, digits with optional
fraction, `px`, word boundary.  Returns the captured number. -/
def flexShorthandAt (s : Str) : Option ℚ :=
  match s with
  | '0' :: r1 =>
    let ws1 := r1.takeWhile isWsChar
    let r2 := r1.dropWhile isWsChar
    if ws1.isEmpty then none
    else
      match r2 with
      | '0' :: r3 =>
        let ws2 := r3.takeWhile isWsChar
        let r4 := r3.dropWhile isWsChar
        if ws2.isEmpty then none
        else
          match r4 with
          | d :: r5 =>
            if isDigitCh d then
              let (run, r6) := spanDigits r5
              let intRun := d :: run
              let tryPx : Str → Str → Option ℚ := fun fracDigits r =>
                match r with
                | p :: x :: r7 =>
                  if eqCI p 'p' && eqCI x 'x' then
                    match r7 with
                    | [] => some (decToRat intRun fracDigits)
                    | e :: _ => if isWordCh e then none else some (decToRat intRun fracDigits)
                  else none
                | _ => none
              match r6 with
              | '.' :: e :: r8 =>
                if isDigitCh e then
                  let (frac, r9) := spanDigits r8
                  tryPx (e :: frac) r9
                else tryPx [] r6
              | _ => tryPx [] r6
            else none
          | [] => none
      | _ => none
  | _ => none

/-- `/\b0\s+0\s+(\d+(?:\.\d+)?)px\b/i.exec`: first match, captured
number. -/
def flexShorthandRat (prevWord : Bool) : Str → Option ℚ
  | [] => none
  | c :: rest =>
    match (if prevWord then none else flexShorthandAt (c :: rest)) with
    | some q => some q
    | none => flexShorthandRat (isWordCh c) rest

/-- Test of `/\b0\s+0\s+\d+px\b/i` (the guard regex, which has no
fraction group; a fractional basis like `0 0 10.5px` fails this test
because `.5px` cannot complete `\d+px\b`). -/
def flexShorthandTestAt (s : Str) : Bool :=
  match s with
  | '0' :: r1 =>
    let ws1 := r1.takeWhile isWsChar
    let r2 := r1.dropWhile isWsChar
    if ws1.isEmpty then false
    else
      match r2 with
      | '0' :: r3 =>
        let ws2 := r3.takeWhile isWsChar
        let r4 := r3.dropWhile isWsChar
        if ws2.isEmpty then false
        else
          match r4 with
          | d :: r5 =>
            if isDigitCh d then
              let r6 := (spanDigits r5).2
              match r6 with
              | p :: x :: r7 =>
                (eqCI p 'p' && eqCI x 'x') &&
                  (match r7 with
                   | [] => true
                   | e :: _ => !isWordCh e)
              | _ => false
            else false
          | [] => false
      | _ => false
  | _ => false

/-- Scanning driver for `flexShorthandTestAt` (test of
`/\b0\s+0\s+\d+px\b/i`). -/
def flexShorthandTest (prevWord : Bool) : Str → Bool
  | [] => false
  | c :: rest =>
    (!prevWord && flexShorthandTestAt (c :: rest)) ||
      flexShorthandTest (isWordCh c) rest

/-- Does `k` start (case-insensitively) with one of the layout property
names, i.e. `/^(width|height|margin|padding|left|right|top|bottom|flex|grid)/i`? -/
def isLayoutProp (k : Str) : Bool :=
  [str "width", str "height", str "margin", str "padding", str "left",
   str "right", str "top", str "bottom", str "flex", str "grid"].any
    (fun p => startsWithCI k p)

/-- Test of `/^(margin|padding|gap)$/i`: case-insensitive exact match. -/
def isSpacingProp (k : Str) : Bool :=
  lcStr k = str "margin" || lcStr k = str "padding" || lcStr k = str "gap"

end BMS

namespace BMS

/-! ## The twelve detectors (`LintEngine.detect*`)

Each detector takes the configuration and the parsed rule list it is
handed by `detectIssues` and returns its issues in emission order. -/

/-- Look up declaration `k` on rule `r`. -/
def decl (r : Rule) (k : String) : Option Str := getDecl r.declarations (str k)

/-- Does the optional declaration value pass `/\b\d+px\b/i`? -/
def declPx (v : Option Str) : Bool :=
  match v with
  | some s => hasPxToken s
  | none => false

/-- `LintEngine.detectFixedDimensions`. -/
def detectFixedDimensions (cfg : Config) (rules : List Rule) : List Issue :=
  rules.flatMap (fun r =>
    if selIgnored cfg r.selector then []
    else
      let w := decl r "width"
      let h := decl r "height"
      let mw := decl r "min-width"
      let mh := decl r "min-height"
      (match w with
       | some wv =>
         if hasPxToken wv ∧ shouldReportFixedValue cfg .width (firstPxRat wv) then
           [{ issue := str "Fixed width"
              explanation := str "Fixed pixel width reduces responsiveness"
              viewportImpact := str "Constrained layout on smaller viewports"
              severity := str "medium"
              correction := str "Use relative units or max-width"
              property := some (str "width")
              value := some wv
              selector := some r.selector }]
         else []
       | none => []) ++
      (match h with
       | some hv =>
         if hasPxToken hv ∧ shouldReportFixedValue cfg .height (firstPxRat hv) then
           [{ issue := str "Fixed height"
              explanation := str "Fixed pixel height can cause overflow"
              viewportImpact := str "Vertical clipping on shorter viewports"
              severity := str "medium"
              correction := str "Use min-height or auto with constraints"
              property := some (str "height")
              value := some hv
              selector := some r.selector }]
         else []
       | none => []) ++
      (if declPx w ∧ declPx h then
         [{ issue := str "Fixed box dimensions"
            explanation := str "Fixed width and height create rigid boxes"
            viewportImpact := str "Breaks responsive scaling across devices"
            severity := str "critical"
            correction := str "Prefer fluid dimensions with min/max constraints"
            selector := some r.selector }]
       else []) ++
      (if declPx mw ∨ declPx mh then
         [{ issue := str "Fixed minimum dimension"
            explanation := str "Rigid minimum size blocks content reflow"
            viewportImpact := str "Triggers overflow below threshold viewports"
            severity := str "medium"
            correction := str "Use percentages or clamp with responsive units"
            selector := some r.selector }]
       else []))

/-- `LintEngine.detectBoxModel`: one document-level issue when both
`border-box` and `content-box` occur (no ignore filtering here). -/
def detectBoxModel (_cfg : Config) (rules : List Rule) : List Issue :=
  let borderBoxCount := rules.countP (fun r =>
    match decl r "box-sizing" with
    | some b => strHasCI b (str "border-box")
    | none => false)
  let contentBoxCount := rules.countP (fun r =>
    match decl r "box-sizing" with
    | some b => strHasCI b (str "content-box")
    | none => false)
  if borderBoxCount ≠ 0 ∧ contentBoxCount ≠ 0 then
    [{ issue := str "Mixed box-sizing"
       explanation := str "Mixed box-sizing leads to inconsistent sizing calculations"
       viewportImpact := str "Inconsistent widths across components"
       severity := str "medium"
       correction := str "Standardize on border-box for layout consistency"
       selector := some (str "*") }]
  else []

/-- `LintEngine.detectOverflowHorizontal`. -/
def detectOverflowHorizontal (cfg : Config) (rules : List Rule) : List Issue :=
  rules.flatMap (fun r =>
    if selIgnored cfg r.selector then []
    else
      let w := decl r "width"
      let mw := decl r "min-width"
      let ow := decl r "overflow-x"
      let mL := decl r "margin-left"
      let mR := decl r "margin-right"
      let pL := decl r "padding-left"
      let pR := decl r "padding-right"
      let nowrap := decl r "white-space"
      (match ow with
       | some o =>
         if strHasCI o (str "visible") ∧ (declPx w ∨ declPx mw) then
           [{ issue := str "Horizontal overflow risk"
              explanation := str "Visible overflow with fixed width can exceed viewport"
              viewportImpact := str "Horizontal scrollbars on small screens"
              severity := str "medium"
              correction := str "Set overflow-x hidden or use max-width"
              selector := some r.selector }]
         else []
       | none => []) ++
      (let fixedPads := ([mL, mR, pL, pR].filter declPx).length
       if fixedPads ≥ 2 ∧ declPx w then
         [{ issue := str "Cumulative horizontal overflow"
            explanation := str "Fixed width with fixed paddings can exceed viewport"
            viewportImpact := str "Content clipped or scrolls horizontally"
            severity := str "medium"
            correction := str "Use responsive paddings and width constraints"
            selector := some r.selector }]
       else []) ++
      (match nowrap with
       | some nw =>
         if strHasCI nw (str "nowrap") ∧ (declPx w ∨ declPx mw) then
           [{ issue := str "No-wrap fixed width"
              explanation := str "No wrapping with fixed width increases overflow risk"
              viewportImpact := str "Text overflows on narrow screens"
              severity := str "low"
              correction := str "Allow wrapping or make width responsive"
              selector := some r.selector }]
         else []
       | none => []))

/-- Fuel-driven first-occurrence deduplication loop. -/
def dedupFirstAux (fuel : Nat) (l : List Str) : List Str :=
  match fuel, l with
  | 0, _ => []
  | _, [] => []
  | fuel + 1, x :: rest => x :: dedupFirstAux fuel (rest.filter (· ≠ x))

/-- First-occurrence-order deduplication (JS object key order); filtering
never lengthens the tail, so fuel equal to the list length never runs
out. -/
def dedupFirst (l : List Str) : List Str := dedupFirstAux l.length l

/-- Append `v` to the bucket of key `k`, keeping first-insertion key
order (JS `propsMap[k].push(...)`). -/
def pushAssoc (m : List (Str × List Str)) (k v : Str) : List (Str × List Str) :=
  match m with
  | [] => [(k, [v])]
  | (k0, vs) :: rest =>
    if k0 = k then (k0, vs ++ [v]) :: rest else (k0, vs) :: pushAssoc rest k v

/-- `LintEngine.detectMediaConflicts`: group every rule block by exact
selector; if any property under a selector has more than one distinct
raw value across blocks, emit one issue for that selector (the source
breaks after the first conflicting property, so at most one per
selector; no ignore filtering here). -/
def detectMediaConflicts (_cfg : Config) (rules : List Rule) : List Issue :=
  let sels := dedupFirst (rules.map (·.selector))
  sels.flatMap (fun sel =>
    let blocks := rules.filter (fun r => r.selector = sel)
    let propsMap := blocks.foldl
      (fun m b => b.declarations.foldl (fun m kv => pushAssoc m kv.1 kv.2) m) []
    let conflict := propsMap.any (fun kv =>
      match kv.2 with
      | [] => false
      | v :: vs => vs.any (· ≠ v))
    if conflict then
      [{ issue := str "Media query instability"
         explanation := str "Property values diverge between base and breakpoints"
         viewportImpact := str "Layout shifts unpredictably across viewports"
         severity := str "medium"
         correction := str "Unify values or constrain ranges to avoid divergence"
         selector := some sel }]
    else [])

/-- `LintEngine.detectOverflowMaskBody`: fires only when the trimmed,
lower-cased selector is exactly `body` and `overflow-x` matches
`/hidden/i` (no ignore filtering here). -/
def detectOverflowMaskBody (_cfg : Config) (rules : List Rule) : List Issue :=
  rules.flatMap (fun r =>
    if lcStr (jsTrim r.selector) = str "body" then
      match decl r "overflow-x" with
      | some ox =>
        if strHasCI ox (str "hidden") then
          [{ issue := str "Body overflow masking"
             explanation := str "Hiding horizontal overflow can mask structural leaks"
             viewportImpact := str "Content clipped without visible scrollbars"
             severity := str "medium"
             correction := str "Prefer fixing causes; avoid global overflow-x: hidden"
             selector := some r.selector }]
        else []
      | none => []
    else [])

/-- `LintEngine.detectVwWidthRisk` (no ignore filtering here). -/
def detectVwWidthRisk (_cfg : Config) (rules : List Rule) : List Issue :=
  rules.flatMap (fun r =>
    match decl r "width" with
    | some w =>
      if has100vw w then
        [{ issue := str "Viewport width overflow"
           explanation := str "100vw includes scrollbar width causing overflow"
           viewportImpact := str "Horizontal scroll or clipped edges on desktops"
           severity := str "medium"
           correction := str "Use 100% or calc(100vw - var(scrollbar))"
           selector := some r.selector }]
      else []
    | none => [])

/-- `LintEngine.detectBreakpointFixedWidth`: only media rules whose
condition contains `(\d+)\s*px`; a `width` whose first `(\d+)px` number
exceeds the breakpoint yields one critical issue (no ignore filtering
here). -/
def detectBreakpointFixedWidth (_cfg : Config) (rules : List Rule) : List Issue :=
  rules.flatMap (fun r =>
    match r.atRule with
    | none => []
    | some cond =>
      match condPxNat cond with
      | none => []
      | some breakpoint =>
        match r.declarations |> fun d => getDecl d (str "width") with
        | none => []
        | some w =>
          match firstPxDigits w with
          | none => []
          | some digits =>
            if digitsToNat digits > breakpoint then
              [{ issue := str "Fixed width exceeds breakpoint"
                 explanation := str "Width in px inside max-width media exceeds the breakpoint"
                 viewportImpact := str "Guaranteed overflow below breakpoint"
                 severity := str "critical"
                 correction := str "Use fluid width or cap with max-width ≤ breakpoint"
                 selector := some r.selector }]
            else [])

/-- Overwriting fold for the base-width map of
`detectMediaWidthInstability` (`baseMap[r.selector] = w`, last wins). -/
def setAssoc (m : List (Str × Str)) (k v : Str) : List (Str × Str) :=
  updAssoc m k v

/-- `LintEngine.detectMediaWidthInstability`: for each selector with a
base `width` and media `width`s, emit one medium issue when some media
width digit-capture differs (as a string) from the base capture (no
ignore filtering here). -/
def detectMediaWidthInstability (_cfg : Config) (rules : List Rule) : List Issue :=
  let baseMap := rules.foldl
    (fun m r =>
      match r.atRule, decl r "width" with
      | none, some w => setAssoc m r.selector w
      | _, _ => m) []
  let mediaMap := rules.foldl
    (fun m r =>
      match r.atRule, decl r "width" with
      | some _, some w => pushAssoc m r.selector w
      | _, _ => m) []
  mediaMap.flatMap (fun kv =>
    let sel := kv.1
    match getDecl baseMap sel with
    | none => []
    | some baseW =>
      let bpx := firstPxDigits baseW
      let hit := kv.2.any (fun mw =>
        match bpx, firstPxDigits mw with
        | some b, some m => b ≠ m
        | _, _ => false)
      if hit then
        [{ issue := str "Media query instability"
           explanation := str "Fixed px width changes across base and media queries"
           viewportImpact := str "Layout width fluctuates unpredictably"
           severity := str "medium"
           correction := str "Use fluid widths or harmonize breakpoint widths"
           selector := some sel }]
      else [])

/-- `LintEngine.detectFlexFragility`. -/
def detectFlexFragility (cfg : Config) (rules : List Rule) : List Issue :=
  rules.flatMap (fun r =>
    if selIgnored cfg r.selector then []
    else
      match decl r "display" with
      | none => []
      | some d =>
        if !strHasCI d (str "flex") then []
        else
          let wrap := decl r "flex-wrap"
          let basis := decl r "flex-basis"
          let flex := decl r "flex"
          (match wrap with
           | some wv =>
             if strHasCI wv (str "nowrap") &&
                 (declPx basis ||
                   (match flex with
                    | some f => flexShorthandTest false f
                    | none => false)) then
               let num : Option ℚ :=
                 match basis with
                 | some b => firstPxRat b
                 | none =>
                   match flex with
                   | some f => flexShorthandRat false f
                   | none => none
               if shouldReportFixedValue cfg .flexBasis num then
                 [{ issue := str "Non-wrapping fixed flex basis"
                    explanation := str "No wrap with fixed basis causes overflow and rigidity"
                    viewportImpact := str "Items overflow container on small screens"
                    severity := str "critical"
                    correction := str "Enable wrapping or use responsive flex-basis"
                    selector := some r.selector }]
               else []
             else []
           | none => []) ++
          (if wrap.isNone then
             [{ issue := str "Flex container without wrap"
                explanation := str "Flex containers default to nowrap, risking overflow"
                viewportImpact := str "Children overflow on narrow screens"
                severity := str "medium"
                correction := str "Set flex-wrap: wrap when widths are rigid"
                selector := some r.selector }]
           else []) ++
          (if decl r "flex-grow" = some (str "0") ∧ decl r "flex-shrink" = some (str "0") ∧
              declPx basis then
             match basis with
             | some b =>
               if shouldReportFixedValue cfg .flexBasis (firstPxRat b) then
                 [{ issue := str "Rigid flex item"
                    explanation := str "No growth or shrink with fixed basis reduces flexibility"
                    viewportImpact := str "Poor reflow under varying viewport widths"
                    severity := str "medium"
                    correction := str "Allow shrink or use relative basis"
                    selector := some r.selector }]
               else []
             | none => []
           else []))

/-- `LintEngine.detectGridRigidity`: grid rules with a case-sensitive
`\b\d+px\b` track; in `pragmatic` mode only reported when some extracted
px number passes the grid-track threshold. -/
def detectGridRigidity (cfg : Config) (rules : List Rule) : List Issue :=
  rules.flatMap (fun r =>
    if selIgnored cfg r.selector then []
    else
      match decl r "display" with
      | none => []
      | some d =>
        if !strHasCI d (str "grid") then []
        else
          let tcols := decl r "grid-template-columns"
          let acol := decl r "grid-auto-columns"
          let trows := decl r "grid-template-rows"
          let pxOf : Option Str → Bool := fun v =>
            match v with
            | some s => hasPxTokenCS s
            | none => false
          if pxOf tcols ∨ pxOf trows ∨ pxOf acol then
            let extractNums : Option Str → List ℚ := fun v =>
              match v with
              | some s => allPxRats s
              | none => []
            let report :=
              if lcStr (if cfg.mode.isEmpty then str "strict" else cfg.mode) = str "pragmatic" then
                (extractNums tcols ++ extractNums trows ++ extractNums acol).any
                  (fun n => shouldReportFixedValue cfg .gridTrack (some n))
              else true
            if report then
              [{ issue := str "Rigid grid tracks"
                 explanation := str "Fixed pixel tracks reduce grid adaptability"
                 viewportImpact := str "Grid fails to reflow on narrow or wide screens"
                 severity := str "medium"
                 correction := str "Use fr units or minmax with responsive bounds"
                 selector := some r.selector }]
            else []
          else [])

/-- `LintEngine.detectAbsoluteContainment`. -/
def detectAbsoluteContainment (cfg : Config) (rules : List Rule) : List Issue :=
  rules.flatMap (fun r =>
    if selIgnored cfg r.selector then []
    else
      match decl r "position" with
      | none => []
      | some pos =>
        if !strHasCI pos (str "absolute") then []
        else
          if declPx (decl r "left") ∨ declPx (decl r "right") ∨
             declPx (decl r "top") ∨ declPx (decl r "bottom") ∨
             declPx (decl r "width") then
            [{ issue := str "Absolute positioning rigidity"
               explanation := str "Absolute positions with fixed pixels reduce adaptability"
               viewportImpact := str "Elements misalign under viewport changes"
               severity := str "medium"
               correction := str "Prefer relative offsets or responsive units"
               selector := some r.selector }]
          else [])

/-- `LintEngine.detectAntiPatterns`: per declaration, in insertion
order, a low-severity issue for `!important` on a layout property and a
threshold-gated low-severity issue for fixed `margin`/`padding`/`gap`. -/
def detectAntiPatterns (cfg : Config) (rules : List Rule) : List Issue :=
  rules.flatMap (fun r =>
    if selIgnored cfg r.selector then []
    else
      r.declarations.flatMap (fun kv =>
        let k := kv.1
        let v := kv.2
        (if strHasCI v (str "!important") ∧ isLayoutProp k then
           [{ issue := str "Layout property with !important"
              explanation := str "Important flags on layout hinder responsive overrides"
              viewportImpact := str "Difficult to adapt across breakpoints"
              severity := str "low"
              correction := str "Remove !important and use specificity or cascade"
              selector := some r.selector }]
         else []) ++
        (if isSpacingProp k ∧ hasPxToken v ∧
            shouldReportFixedValue cfg .spacing (firstPxRat v) then
           [{ issue := str "Fixed pixel spacing"
              explanation := str "Fixed spacing can break scaling"
              viewportImpact := str "Compressed or expanded layout across devices"
              severity := str "low"
              correction := str "Use responsive units or clamp"
              selector := some r.selector }]
         else [])))

end BMS

namespace BMS

/-! ## Analysis entry point (`LintEngine.detectIssues`) -/

/-- Try to match `/<prop>:\s*(\d+(\.\d+)?)px/i` at the very start of
`s`; on success return `(full match, unit)` where `unit` is the first
match of `/\d+(\.\d+)?\s*px/i` inside the full match (the digits through
`px`). -/
def propPxAt (prop : Str) (s : Str) : Option (Str × Str) :=
  if startsWithCI s prop then
    let propPart := s.take prop.length
    let r1 := s.drop prop.length
    let ws := r1.takeWhile isWsChar
    let r2 := r1.dropWhile isWsChar
    match r2 with
    | d :: r3 =>
      if isDigitCh d then
        let (run, r4) := spanDigits r3
        let core := d :: run
        let finish : Str → Str → Option (Str × Str) := fun numPart r =>
          match r with
          | p :: x :: _ =>
            if eqCI p 'p' && eqCI x 'x' then
              let unit := numPart ++ [p, x]
              some (propPart ++ ws ++ unit, unit)
            else none
          | _ => none
        match r4 with
        | '.' :: e :: r5 =>
          if isDigitCh e then
            let (frac, r6) := spanDigits r5
            finish (core ++ '.' :: e :: frac) r6
          else finish core r4
        | _ => finish core r4
      else none
    | [] => none
  else none

/-- Leftmost match of `/<prop>:\s*(\d+(\.\d+)?)px/i` in a line. -/
def propPxMatch (prop : Str) : Str → Option (Str × Str)
  | [] => none
  | c :: rest =>
    match propPxAt prop (c :: rest) with
    | some r => some r
    | none => propPxMatch prop rest

/-- `LintEngine.detectIssuesFromText`: the shallow text-fallback used for
`less`/`sass`.  Each raw line matching `width:`/`height:` px patterns
yields an issue with the line number and unit range attached directly;
no configuration (thresholds or ignore list) is consulted. -/
def detectIssuesFromText (css : Str) : List Issue :=
  (splitOnCh '\n' css).enum.flatMap (fun p =>
    let i := p.1
    let ln := p.2
    (match propPxMatch (str "width:") ln with
     | some (full, unit) =>
       let unitIndex := findSub ln unit
       [{ issue := str "Fixed width"
          explanation := str "Fixed pixel width reduces responsiveness"
          viewportImpact := str "Constrained layout on smaller viewports"
          severity := str "medium"
          correction := str "Use relative units or max-width"
          property := some (str "width")
          value := some full
          lineNumber := some i
          startChar := unitIndex
          endChar := unitIndex.map (· + unit.length) }]
     | none => []) ++
    (match propPxMatch (str "height:") ln with
     | some (full, unit) =>
       let unitIndex := findSub ln unit
       [{ issue := str "Fixed height"
          explanation := str "Fixed pixel height can cause overflow"
          viewportImpact := str "Vertical clipping on shorter viewports"
          severity := str "medium"
          correction := str "Use min-height or auto with constraints"
          property := some (str "height")
          value := some full
          lineNumber := some i
          startChar := unitIndex
          endChar := unitIndex.map (· + unit.length) }]
     | none => []))

/-- The ordered detector battery of `detectIssues`, applied to the
upfront-filtered rule list. -/
def runDetectors (cfg : Config) (rules : List Rule) : List Issue :=
  detectFixedDimensions cfg rules ++
  detectBoxModel cfg rules ++
  detectOverflowHorizontal cfg rules ++
  detectMediaConflicts cfg rules ++
  detectOverflowMaskBody cfg rules ++
  detectVwWidthRisk cfg rules ++
  detectBreakpointFixedWidth cfg rules ++
  detectMediaWidthInstability cfg rules ++
  detectFlexFragility cfg rules ++
  detectGridRigidity cfg rules ++
  detectAbsoluteContainment cfg rules ++
  detectAntiPatterns cfg rules

/-- The structured path of `LintEngine.detectIssues`: parse, apply the
upfront `ignoreSelectors` filter to the parsed rule list, then run all
twelve detectors.  (The subsequent `mapIssuesToLines` pass only
decorates each issue with a source position, mapping the list
one-to-one; it is not modelled.) -/
def detectIssuesCore (css : Str) (cfg : Config) : List Issue :=
  runDetectors cfg (upfrontFiltered cfg (parseRules css))

/-- `LintEngine.detectIssues`: `less`/`sass` documents take the
text-fallback path (which never consults the configuration); all other
language ids take the structured path. -/
def detectIssues (languageId : Str) (css : Str) (cfg : Config) : List Issue :=
  if languageId = str "less" ∨ languageId = str "sass" then
    detectIssuesFromText css
  else
    detectIssuesCore css cfg

end BMS

namespace BMS

/-! ## Character palette and text formatter
(`core/character-palette.js`, `utils/text-formatter.js`) -/

/-- `TextFormatter.isEmoji`: code-point range test. -/
def isEmojiCh (c : Char) : Bool :=
  let n := c.toNat
  (0x1F300 ≤ n ∧ n ≤ 0x1F9FF) || (0x2600 ≤ n ∧ n ≤ 0x26FF) ||
  (0x2700 ≤ n ∧ n ≤ 0x27BF) || n = 0x2139 || (0x2194 ≤ n ∧ n ≤ 0x21AA)

/-- `TextFormatter.visualLength`: emojis count as two columns and a
variation selector (U+FE0F) directly after an emoji is skipped. -/
def vlen : Str → Nat
  | [] => 0
  | [c] => if isEmojiCh c then 2 else 1
  | c :: d :: rest =>
    if isEmojiCh c then
      (if d.toNat = 0xFE0F then 2 + vlen rest else 2 + vlen (d :: rest))
    else 1 + vlen (d :: rest)

/-- The truncation loop of `TextFormatter.truncate`: keep characters
while the running visual length stays within `target`. -/
def truncAux (target cur : Nat) : Str → Str
  | [] => []
  | c :: rest =>
    let cl := if isEmojiCh c then 2 else 1
    if cur + cl > target then []
    else c :: truncAux target (cur + cl) rest

/-- `TextFormatter.truncate`: unchanged when it fits, else truncated to
`maxLength - 1` visual columns plus the ellipsis character. -/
def truncate (text : Str) (maxLength : Nat) : Str :=
  if vlen text ≤ maxLength then text
  else truncAux (maxLength - 1) 0 text ++ [ '…' ]

/-- Alignment argument of `TextFormatter.pad`. -/
inductive Align where
  | left | center | right
  deriving Repr, DecidableEq

/-- `TextFormatter.pad`: pad to `width` visual columns, truncating when
the text is already at least that wide. -/
def pad (text : Str) (width : Nat) (align : Align) : Str :=
  let tl := vlen text
  if tl ≥ width then truncate text width
  else
    let padding := width - tl
    match align with
    | .center =>
      let leftPad := padding / 2
      List.replicate leftPad ' ' ++ text ++ List.replicate (padding - leftPad) ' '
    | .right => List.replicate padding ' ' ++ text
    | .left => text ++ List.replicate padding ' '

/-- `LayoutCalculator.parseValue` helper: full-string match of
`^(\d+(?:\.\d+)?)<suffix>$` (case-sensitive), returning the number. -/
def parseNumAnchored (s : Str) (suffix : Str) : Option ℚ :=
  match s with
  | d :: r1 =>
    if isDigitCh d then
      let (run, r2) := spanDigits r1
      match r2 with
      | '.' :: e :: r3 =>
        if isDigitCh e then
          let (frac, r4) := spanDigits r3
          if r4 = suffix then some (decToRat (d :: run) (e :: frac)) else none
        else none
      | _ => if r2 = suffix then some (decToRat (d :: run) []) else none
    else none
  | [] => none

/-- `LayoutCalculator.parseValue`: px directly, vw against a 1920px
viewport, % against a 1200px container; `none` when parsing fails. -/
def parseValue (value : Str) : Option ℚ :=
  if value.isEmpty then none
  else
    match parseNumAnchored value (str "px") with
    | some q => some q
    | none =>
      match parseNumAnchored value (str "vw") with
      | some q => some (Rat.divInt (q.num * 1920) ((q.den : Int) * 100))
      | none =>
        match parseNumAnchored value [ '%' ] with
        | some q => some (Rat.divInt (q.num * 1200) ((q.den : Int) * 100))
        | none => none

/-- JS `parseValue(x) || default`: `null` and `0` both fall back. -/
def jsOrNum (o : Option ℚ) (d : ℚ) : ℚ :=
  match o with
  | none => d
  | some x => if x = 0 then d else x

/-- JS `s || default` on strings: the empty string falls back. -/
def jsOrStr (s d : Str) : Str := if s.isEmpty then d else s

/-- ASCII upper-casing (JS `toUpperCase` on the engine's labels). -/
def ucChar (c : Char) : Char :=
  if 'a' ≤ c ∧ c ≤ 'z' then Char.ofNat (c.toNat - 32) else c

/-- Upper-case a string. -/
def ucStr (s : Str) : Str := s.map ucChar

/-- Fuel-driven decimal-digit rendering. -/
def natDigitsAux (fuel : Nat) (n : Nat) : Str :=
  match fuel with
  | 0 => [Char.ofNat (48 + n % 10)]
  | fuel + 1 =>
    if n < 10 then [Char.ofNat (48 + n)]
    else natDigitsAux fuel (n / 10) ++ [Char.ofNat (48 + n % 10)]

/-- Decimal digits of a natural number (the number itself amply bounds
the digit count as fuel). -/
def natDigitsStr (n : Nat) : Str := natDigitsAux n n

/-- JS template rendering `${i}` of an integer number. -/
def intStr (i : Int) : Str :=
  if i < 0 then '-' :: natDigitsStr i.natAbs else natDigitsStr i.toNat

/-- Join diagram lines with newlines (`lines.join('\n')`). -/
def joinNL : List Str → Str
  | [] => []
  | [l] => l
  | l :: rest => l ++ '\n' :: joinNL rest

end BMS

namespace BMS

/-! ## Base generator and the twelve diagram generators
(`generators/base-generator.js` and the per-type generator files) -/

/-- The validated diagram input (`VisualizerIssue`): all required fields
present.  `category` is carried but not consulted by any generator. -/
structure VIssue where
  type : Str
  severity : Str
  line : Int
  selector : Str
  property : Str
  value : Str
  suggestion : Str
  category : Str
  deriving Repr, DecidableEq

/-- The generator output (`Visualization`). `generationTime` is stamped
by the caller in the source and plays no part in any property here, so
it is fixed at `0`. -/
structure Visualization where
  ascii : Str
  width : Nat
  height : Nat
  deriving Repr, DecidableEq

/-- One column of the BEFORE/AFTER comparison (`LayoutData`). -/
structure LayoutData where
  label : Str
  statusEmoji : Char
  content : List Str
  measurements : Str
  deriving Repr

/-- `BaseGenerator.getSeverityEmoji`. -/
def getSeverityEmoji (severity : Str) : Char :=
  if severity = str "critical" then '✖'
  else if severity = str "medium" then '⚠'
  else if severity = str "low" then 'ⓘ'
  else 'ⓘ'

/-- `BaseGenerator.renderHeader`: border, padded title with upper-cased
type label, severity glyph and `L<line>`, divider. -/
def renderHeader (typeLabel : Str) (sevEmoji : Char) (line : Int) : List Str :=
  let title := ucStr typeLabel ++ str " • " ++ [sevEmoji] ++ str " • L" ++ intStr line
  [ '┌' :: List.replicate 58 '─' ++ [ '┐' ],
    '│' :: pad title 58 .left ++ [ '│' ],
    '│' :: List.replicate 58 '─' ++ [ '│' ] ]

/-- `BaseGenerator.renderComparison`: label line, side-by-side content
lines, and the measurements line, each boxed by vertical borders. -/
def renderComparison (before after : LayoutData) : List Str :=
  let halfWidth : Nat := 29
  let labelLine :=
    pad (str "  " ++ before.label) halfWidth .left ++ [ '→' ] ++
      pad after.label (halfWidth - 2) .left
  let maxLines := max before.content.length after.content.length
  let contentLines := (List.range maxLines).map (fun i =>
    let beforeLine := pad (before.content.getD i []) halfWidth .left
    let afterLine := pad (after.content.getD i []) (halfWidth - 1) .left
    let fullLine := beforeLine ++ ' ' :: afterLine
    '│' :: pad fullLine 58 .left ++ [ '│' ])
  let measureLine :=
    pad (str "  " ++ [before.statusEmoji] ++ ' ' :: before.measurements) halfWidth .left ++
      ' ' :: pad ([after.statusEmoji] ++ ' ' :: after.measurements) (halfWidth - 1) .left
  ('│' :: labelLine ++ [ '│' ]) :: contentLines ++
    [ '│' :: pad measureLine 58 .left ++ [ '│' ] ]

/-- `BaseGenerator.renderFooter`. -/
def renderFooter : List Str :=
  [ '└' :: List.replicate 58 '─' ++ [ '┘' ] ]

/-- The line list of `BaseGenerator.generateStandardVisualization`:
header, BEFORE/AFTER comparison, footer. -/
def stdLines (issue : VIssue) (typeLabel : Str) (beforeC afterC : List Str) : List Str :=
  renderHeader typeLabel (getSeverityEmoji issue.severity) issue.line ++
  renderComparison
    { label := str "BEFORE", statusEmoji := '✖', content := beforeC,
      measurements := issue.property ++ str ": " ++ issue.value }
    { label := str "AFTER", statusEmoji := '✓', content := afterC,
      measurements := jsOrStr issue.suggestion (str "Use responsive units") } ++
  renderFooter

/-- `BaseGenerator.generateStandardVisualization`. -/
def generateStandardVisualization (issue : VIssue) (typeLabel : Str)
    (beforeC afterC : List Str) : Visualization :=
  let lines := stdLines issue typeLabel beforeC afterC
  { ascii := joinNL lines, width := 60, height := lines.length }

/-- Floor of a nonnegative rational scaled by `1/scale`, as the repeat
count `Math.floor(v / scale)` (all generator inputs are nonnegative, so
`Int.toNat` is the identity on the floor). -/
def floorDiv (v : ℚ) (scale : ℚ) : Nat :=
  (Rat.floor (Rat.divInt (v.num * (scale.den : Int)) ((v.den : Int) * scale.num))).toNat

/-- `FixedDimensionsGenerator.renderFixedBox`. -/
def renderFixedBox (elementWidth containerWidth : ℚ) : List Str :=
  let boxWidth := floorDiv elementWidth 20
  let viewportWidth := floorDiv containerWidth 20
  let overflow := boxWidth > viewportWidth
  let visibleWidth := min boxWidth viewportWidth
  let overflowWidth := if overflow then boxWidth - viewportWidth else 0
  [ str "  " ++ '┌' :: List.replicate viewportWidth '─' ++ [ '┐' ],
    str "  " ++ '│' :: List.replicate visibleWidth '█' ++
      (if overflow then List.replicate (min overflowWidth 3) '▓' ++ [ '►' ] else [ '│' ]),
    str "  " ++ '└' :: List.replicate viewportWidth '─' ++ [ '┘' ] ]

/-- `FixedDimensionsGenerator.renderResponsiveBox`. -/
def renderResponsiveBox (containerWidth : ℚ) : List Str :=
  let boxWidth := floorDiv containerWidth 20
  [ str "  " ++ '┌' :: List.replicate boxWidth '─' ++ [ '┐' ],
    str "  " ++ '│' :: List.replicate boxWidth '█' ++ [ '│' ],
    str "  " ++ '└' :: List.replicate boxWidth '─' ++ [ '┘' ] ]

/-- `FixedDimensionsGenerator.generate`. -/
def genFixedDimensions (issue : VIssue) : Visualization :=
  let fixedWidth := jsOrNum (parseValue issue.value) 600
  generateStandardVisualization issue (str "Fixed Dimensions")
    (renderFixedBox fixedWidth 400) (renderResponsiveBox 400)

/-- `ViewportOverflowGenerator.renderViewportOverflow`. -/
def renderViewportOverflow (elementWidth viewportWidth : ℚ) (label : Str) : List Str :=
  let boxWidth := floorDiv elementWidth 50
  let vpWidth := floorDiv viewportWidth 50
  let overflow := boxWidth > vpWidth
  let visibleWidth := min boxWidth vpWidth
  let overflowWidth := if overflow then min (boxWidth - vpWidth) 3 else 0
  [ str "  " ++ label,
    str "  " ++ '┌' :: List.replicate vpWidth '─' ++ [ '┐' ],
    str "  " ++ '│' :: List.replicate visibleWidth '█' ++
      (if overflow then List.replicate overflowWidth '▓' ++ [ '►' ] else [ '│' ]),
    str "  " ++ '└' :: List.replicate vpWidth '─' ++ [ '┘' ] ]

/-- `ViewportOverflowGenerator.renderResponsiveViewport`. -/
def renderResponsiveViewport (viewportWidth : ℚ) (label : Str) : List Str :=
  let vpWidth := floorDiv viewportWidth 50
  [ str "  " ++ label,
    str "  " ++ '┌' :: List.replicate vpWidth '─' ++ [ '┐' ],
    str "  " ++ '│' :: List.replicate vpWidth '█' ++ [ '│' ],
    str "  " ++ '└' :: List.replicate vpWidth '─' ++ [ '┘' ] ]

/-- `ViewportOverflowGenerator.generate`. -/
def genViewportOverflow (issue : VIssue) : Visualization :=
  let elementWidth := jsOrNum (parseValue issue.value) 1200
  generateStandardVisualization issue (str "Viewport Overflow")
    (renderViewportOverflow elementWidth 375 (str "Mobile 375px"))
    (renderResponsiveViewport 375 (str "Mobile 375px"))

/-- `FlexFragilityGenerator.renderRigidFlex` (container 18, items 6). -/
def renderRigidFlex : List Str :=
  [ str "  " ++ '┌' :: List.replicate 18 '─' ++ [ '┐' ],
    str "  " ++ '│' :: List.replicate 6 '█' ++ ' ' :: List.replicate 6 '█' ++
      ' ' :: List.replicate (min 6 (18 - 14)) '█' ++ [ '►' ],
    str "  " ++ '└' :: List.replicate 18 '─' ++ [ '┘' ] ]

/-- `FlexFragilityGenerator.renderFlexibleFlex`. -/
def renderFlexibleFlex : List Str :=
  [ str "  " ++ '┌' :: List.replicate 18 '─' ++ [ '┐' ],
    str "  " ++ '│' :: List.replicate 6 '█' ++ ' ' :: List.replicate 6 '█' ++
      List.replicate (18 - 13) ' ' ++ [ '│' ],
    str "  " ++ '│' :: List.replicate 6 '█' ++ List.replicate (18 - 6) ' ' ++ [ '│' ],
    str "  " ++ '└' :: List.replicate 18 '─' ++ [ '┘' ] ]

/-- `FlexFragilityGenerator.generate`. -/
def genFlexFragility (issue : VIssue) : Visualization :=
  generateStandardVisualization issue (str "Flex Fragility")
    renderRigidFlex renderFlexibleFlex

/-- `GridRigidityGenerator.renderRigidGrid` (container 18, columns 5). -/
def renderRigidGrid : List Str :=
  [ str "  " ++ '┌' :: List.replicate 18 '─' ++ [ '┐' ],
    str "  " ++ '│' :: List.replicate 5 '█' ++ ' ' :: List.replicate 5 '█' ++
      ' ' :: List.replicate 5 '█' ++ [ '►' ],
    str "  " ++ '└' :: List.replicate 18 '─' ++ [ '┘' ] ]

/-- `GridRigidityGenerator.renderResponsiveGrid`. -/
def renderResponsiveGrid : List Str :=
  [ str "  " ++ '┌' :: List.replicate 18 '─' ++ [ '┐' ],
    str "  " ++ '│' :: List.replicate 5 '█' ++ ' ' :: List.replicate 5 '█' ++
      ' ' :: List.replicate 5 '█' ++ List.replicate (18 - 17) ' ' ++ [ '│' ],
    str "  " ++ '│' :: List.replicate 5 '█' ++ List.replicate (18 - 5) ' ' ++ [ '│' ],
    str "  " ++ '└' :: List.replicate 18 '─' ++ [ '┘' ] ]

/-- `GridRigidityGenerator.generate`. -/
def genGridRigidity (issue : VIssue) : Visualization :=
  generateStandardVisualization issue (str "Grid Rigidity")
    renderRigidGrid renderResponsiveGrid

/-- `FixedSpacingGenerator.renderFixedSpacing` (container 18, padding
scaled from the parsed spacing value, capped at 4). -/
def renderFixedSpacing (spacingValue : ℚ) : List Str :=
  let padding := min (floorDiv spacingValue 10) 4
  let contentWidth := 18 - padding * 2
  [ str "  " ++ '┌' :: List.replicate 18 '─' ++ [ '┐' ],
    str "  " ++ '│' :: List.replicate 18 '░' ++ [ '│' ],
    str "  " ++ '│' :: List.replicate padding '░' ++ List.replicate contentWidth '█' ++
      List.replicate padding '░' ++ [ '│' ],
    str "  " ++ '│' :: List.replicate 18 '░' ++ [ '│' ],
    str "  " ++ '└' :: List.replicate 18 '─' ++ [ '┘' ] ]

/-- `FixedSpacingGenerator.renderResponsiveSpacing` (fixed padding 2). -/
def renderResponsiveSpacing : List Str :=
  [ str "  " ++ '┌' :: List.replicate 18 '─' ++ [ '┐' ],
    str "  " ++ '│' :: List.replicate 18 '░' ++ [ '│' ],
    str "  " ++ '│' :: List.replicate 2 '░' ++ List.replicate 14 '█' ++
      List.replicate 2 '░' ++ [ '│' ],
    str "  " ++ '│' :: List.replicate 18 '░' ++ [ '│' ],
    str "  " ++ '└' :: List.replicate 18 '─' ++ [ '┘' ] ]

/-- `FixedSpacingGenerator.generate`. -/
def genFixedSpacing (issue : VIssue) : Visualization :=
  let spacingValue := jsOrNum (parseValue issue.value) 40
  generateStandardVisualization issue (str "Fixed Spacing")
    (renderFixedSpacing spacingValue) renderResponsiveSpacing

/-- `MediaInstabilityGenerator.renderUnstableMedia`. -/
def renderUnstableMedia : List Str :=
  [ str "  Mobile 375px",
    str "  " ++ '┌' :: List.replicate 7 '─' ++ [ '┐' ],
    str "  " ++ '│' :: List.replicate 7 '█' ++ '►' :: str " breaks",
    str "  " ++ '└' :: List.replicate 7 '─' ++ [ '┘' ] ]

/-- `MediaInstabilityGenerator.renderStableMedia`. -/
def renderStableMedia : List Str :=
  [ str "  Mobile 375px",
    str "  " ++ '┌' :: List.replicate 7 '─' ++ [ '┐' ],
    str "  " ++ '│' :: List.replicate 7 '█' ++ '│' :: str " stable",
    str "  " ++ '└' :: List.replicate 7 '─' ++ [ '┘' ] ]

/-- `MediaInstabilityGenerator.generate`. -/
def genMediaInstability (issue : VIssue) : Visualization :=
  generateStandardVisualization issue (str "Media Instability")
    renderUnstableMedia renderStableMedia

/-- `OverflowMaskingGenerator.renderMaskedOverflow` (viewport 20). -/
def renderMaskedOverflow : List Str :=
  [ str "  body \x7b",
    str "  " ++ '┌' :: List.replicate 20 '─' ++ [ '┐' ],
    str "  " ++ '│' :: List.replicate 20 '█' ++ [ '│' ],
    str "  " ++ '│' :: List.replicate 20 '░' ++ '…' :: str " hidden",
    str "  " ++ '└' :: List.replicate 20 '─' ++ [ '┘' ],
    str "  \x7d" ]

/-- `OverflowMaskingGenerator.renderVisibleOverflow`. -/
def renderVisibleOverflow : List Str :=
  [ str "  body \x7b",
    str "  " ++ '┌' :: List.replicate 20 '─' ++ [ '┐' ],
    str "  " ++ '│' :: List.replicate 20 '█' ++ [ '│' ],
    str "  " ++ '│' :: List.replicate 20 '█' ++ [ '│' ],
    str "  " ++ '└' :: List.replicate 20 '─' ++ [ '┘' ],
    str "  \x7d" ]

/-- `OverflowMaskingGenerator.generate`. -/
def genOverflowMasking (issue : VIssue) : Visualization :=
  generateStandardVisualization issue (str "Overflow Masking")
    renderMaskedOverflow renderVisibleOverflow

/-- `BreakpointExceededGenerator.renderExceededBreakpoint` (breakpoint
box 12, content 16). -/
def renderExceededBreakpoint : List Str :=
  [ str "  @media (max: 768px)",
    str "  " ++ '┌' :: List.replicate 12 '─' ++ [ '┐' ],
    str "  " ++ '│' :: List.replicate 12 '█' ++
      List.replicate (min (16 - 12) 3) '▓' ++ [ '►' ],
    str "  " ++ '└' :: List.replicate 12 '─' ++ [ '┘' ] ]

/-- `BreakpointExceededGenerator.renderAdjustedBreakpoint`. -/
def renderAdjustedBreakpoint : List Str :=
  [ str "  @media (max: 1024px)",
    str "  " ++ '┌' :: List.replicate 16 '─' ++ [ '┐' ],
    str "  " ++ '│' :: List.replicate 16 '█' ++ [ '│' ],
    str "  " ++ '└' :: List.replicate 16 '─' ++ [ '┘' ] ]

/-- `BreakpointExceededGenerator.generate`. -/
def genBreakpointExceeded (issue : VIssue) : Visualization :=
  generateStandardVisualization issue (str "Breakpoint Exceeded")
    renderExceededBreakpoint renderAdjustedBreakpoint

/-- `AbsoluteRigidityGenerator.renderAbsolutePositioning` (container 18,
element 6 at offset 10). -/
def renderAbsolutePositioning : List Str :=
  [ str "  " ++ '┌' :: List.replicate 18 '─' ++ [ '┐' ],
    str "  " ++ '│' :: List.replicate 18 ' ' ++ [ '│' ],
    str "  " ++ '│' :: List.replicate 10 ' ' ++ List.replicate 6 '█' ++
      List.replicate (18 - 10 - 6) ' ' ++ [ '│' ],
    str "  " ++ '│' :: List.replicate 18 ' ' ++ [ '│' ],
    str "  " ++ '└' :: List.replicate 18 '─' ++ [ '┘' ] ]

/-- `AbsoluteRigidityGenerator.renderFlexiblePositioning` (offset 6). -/
def renderFlexiblePositioning : List Str :=
  [ str "  " ++ '┌' :: List.replicate 18 '─' ++ [ '┐' ],
    str "  " ++ '│' :: List.replicate 18 ' ' ++ [ '│' ],
    str "  " ++ '│' :: List.replicate 6 ' ' ++ List.replicate 6 '█' ++
      List.replicate (18 - 6 - 6) ' ' ++ [ '│' ],
    str "  " ++ '│' :: List.replicate 18 ' ' ++ [ '│' ],
    str "  " ++ '└' :: List.replicate 18 '─' ++ [ '┘' ] ]

/-- `AbsoluteRigidityGenerator.generate`. -/
def genAbsoluteRigidity (issue : VIssue) : Visualization :=
  generateStandardVisualization issue (str "Absolute Rigidity")
    renderAbsolutePositioning renderFlexiblePositioning

/-- `BoxInconsistencyGenerator.renderContentBox` (content 12, padding 2,
total 16; overflow arrows on the borders). -/
def renderContentBox : List Str :=
  [ str "  " ++ '┌' :: List.replicate 16 '─' ++ [ '┐', '►' ],
    str "  " ++ '│' :: List.replicate 16 '░' ++ [ '│' ],
    str "  " ++ '│' :: List.replicate 2 '░' ++ List.replicate 12 '█' ++
      List.replicate 2 '░' ++ [ '│' ],
    str "  " ++ '│' :: List.replicate 16 '░' ++ [ '│' ],
    str "  " ++ '└' :: List.replicate 16 '─' ++ [ '┘', '►' ] ]

/-- `BoxInconsistencyGenerator.renderBorderBox` (total 12, padding 2,
content 8). -/
def renderBorderBox : List Str :=
  [ str "  " ++ '┌' :: List.replicate 12 '─' ++ [ '┐' ],
    str "  " ++ '│' :: List.replicate 12 '░' ++ [ '│' ],
    str "  " ++ '│' :: List.replicate 2 '░' ++ List.replicate 8 '█' ++
      List.replicate 2 '░' ++ [ '│' ],
    str "  " ++ '│' :: List.replicate 12 '░' ++ [ '│' ],
    str "  " ++ '└' :: List.replicate 12 '─' ++ [ '┘' ] ]

/-- `BoxInconsistencyGenerator.generate`. -/
def genBoxInconsistency (issue : VIssue) : Visualization :=
  generateStandardVisualization issue (str "Box Inconsistency")
    renderContentBox renderBorderBox

/-- `OverflowHorizontalGenerator.renderHorizontalOverflow` (scale 20,
container 400, optional scrollbar line when the element overflows). -/
def renderHorizontalOverflow (elementWidth containerWidth : ℚ) : List Str :=
  let boxWidth := floorDiv elementWidth 20
  let vpWidth := floorDiv containerWidth 20
  let visibleWidth := min boxWidth vpWidth
  let hasOverflow := boxWidth > vpWidth
  [ str "  " ++ '┌' :: List.replicate vpWidth '─' ++ [ '┐' ],
    str "  " ++ '│' :: List.replicate visibleWidth '█' ++
      (if hasOverflow then [ '►' ] else [ '│' ]) ] ++
  (if hasOverflow then
     let scrollbarWidth := max 3 (vpWidth / 3)
     [ str "  " ++ '│' :: List.replicate scrollbarWidth '▓' ++
         List.replicate (vpWidth - scrollbarWidth) ' ' ++ [ '│' ] ]
   else []) ++
  [ str "  " ++ '└' :: List.replicate vpWidth '─' ++ [ '┘' ] ]

/-- `OverflowHorizontalGenerator.renderContainedContent`. -/
def renderContainedContent (containerWidth : ℚ) : List Str :=
  let vpWidth := floorDiv containerWidth 20
  [ str "  " ++ '┌' :: List.replicate vpWidth '─' ++ [ '┐' ],
    str "  " ++ '│' :: List.replicate vpWidth '█' ++ [ '│' ],
    str "  " ++ '└' :: List.replicate vpWidth '─' ++ [ '┘' ] ]

/-- `OverflowHorizontalGenerator.generate`. -/
def genOverflowHorizontal (issue : VIssue) : Visualization :=
  let elementWidth := jsOrNum (parseValue issue.value) 800
  generateStandardVisualization issue (str "Horizontal Overflow")
    (renderHorizontalOverflow elementWidth 400) (renderContainedContent 400)

/-- `NowrapFixedGenerator.renderNowrapOverflow` (container 16). -/
def renderNowrapOverflow : List Str :=
  [ str "  " ++ '┌' :: List.replicate 16 '─' ++ [ '┐' ],
    str "  " ++ '│' :: str "Long text conte" ++ [ '…', '►' ],
    str "  " ++ '└' :: List.replicate 16 '─' ++ [ '┘' ] ]

/-- `NowrapFixedGenerator.renderWrappedText`. -/
def renderWrappedText : List Str :=
  [ str "  " ++ '┌' :: List.replicate 16 '─' ++ [ '┐' ],
    str "  " ++ '│' :: str "Long text conte" ++ [ '│' ],
    str "  " ++ '│' :: str "nt wraps here  " ++ [ '│' ],
    str "  " ++ '└' :: List.replicate 16 '─' ++ [ '┘' ] ]

/-- `NowrapFixedGenerator.generate`. -/
def genNowrapFixed (issue : VIssue) : Visualization :=
  generateStandardVisualization issue (str "Nowrap Fixed")
    renderNowrapOverflow renderWrappedText

/-- The twelve supported issue types, in the factory registration order
of `AsciiVisualizer.registerGeneratorFactories`. -/
def supportedTypes : List Str :=
  [str "fixed-dimensions", str "viewport-overflow", str "flex-fragility",
   str "grid-rigidity", str "fixed-spacing", str "media-instability",
   str "overflow-masking", str "breakpoint-exceeded", str "absolute-rigidity",
   str "box-inconsistency", str "overflow-horizontal", str "nowrap-fixed"]

/-- Dispatch on the issue type to its builtin generator, mirroring the
lazy factory map; `none` for unregistered types. -/
def generatorFor (t : Str) : Option (VIssue → Visualization) :=
  if t = str "fixed-dimensions" then some genFixedDimensions
  else if t = str "viewport-overflow" then some genViewportOverflow
  else if t = str "flex-fragility" then some genFlexFragility
  else if t = str "grid-rigidity" then some genGridRigidity
  else if t = str "fixed-spacing" then some genFixedSpacing
  else if t = str "media-instability" then some genMediaInstability
  else if t = str "overflow-masking" then some genOverflowMasking
  else if t = str "breakpoint-exceeded" then some genBreakpointExceeded
  else if t = str "absolute-rigidity" then some genAbsoluteRigidity
  else if t = str "box-inconsistency" then some genBoxInconsistency
  else if t = str "overflow-horizontal" then some genOverflowHorizontal
  else if t = str "nowrap-fixed" then some genNowrapFixed
  else none

end BMS

namespace BMS

/-! ## Visualizer entry point (`AsciiVisualizer` in `core/visualizer.js`) -/

/-- The raw diagram input before validation: any field may be missing.
`line = none` models both a missing `line` and a non-number one (the
validation only accepts `typeof line === 'number'`). -/
structure RawVIssue where
  type : Option Str := none
  severity : Option Str := none
  line : Option Int := none
  selector : Option Str := none
  property : Option Str := none
  value : Option Str := none
  suggestion : Option Str := none
  category : Option Str := none
  deriving Repr

/-- JS truthiness of an optional string field (`undefined` and the empty
string are falsy). -/
def jsTruthy (s : Option Str) : Bool :=
  match s with
  | none => false
  | some v => !v.isEmpty

/-- `AsciiVisualizer.isValidIssue`: `type`, `severity`, `selector`,
`property`, `value` truthy and `line` a number. -/
def isValidIssue (i : RawVIssue) : Bool :=
  jsTruthy i.type && jsTruthy i.severity && i.line.isSome &&
  jsTruthy i.selector && jsTruthy i.property && jsTruthy i.value

/-- View a validated raw issue as the `VIssue` consumed by generators
(missing optional fields read as the empty string, which the generators'
`||` fallbacks treat like `undefined`). -/
def toVIssue (i : RawVIssue) : VIssue :=
  { type := i.type.getD []
    severity := i.severity.getD []
    line := i.line.getD 0
    selector := i.selector.getD []
    property := i.property.getD []
    value := i.value.getD []
    suggestion := i.suggestion.getD []
    category := i.category.getD [] }

/-- `AsciiVisualizer.padLine`: code-unit-length padding used only by the
error diagram. -/
def padLine (text : Str) (width : Nat) : Str :=
  if text.length ≥ width then text.take (width - 1) ++ [ '…' ]
  else text ++ List.replicate (width - text.length) ' '

/-- `AsciiVisualizer.generateErrorVisualization`: the fixed five-line
error box with the message padded to 56 columns. -/
def generateErrorVisualization (message : Str) : Visualization :=
  let lines : List Str :=
    [ '┌' :: List.replicate 56 '─' ++ [ '┐' ],
      str "│ " ++ '\u26A0' :: '\uFE0F' :: str "  Visualization Error" ++
        List.replicate 32 ' ' ++ [ '│' ],
      '├' :: List.replicate 56 '─' ++ [ '┤' ],
      str "│ " ++ padLine message 56 ++ str " │",
      '└' :: List.replicate 56 '─' ++ [ '┘' ] ]
  { ascii := joinNL lines, width := 60, height := 5 }

/-- `AsciiVisualizer.generateFallback`: the one-line diagram for an
issue type with no registered generator. -/
def generateFallback (t : Str) : Visualization :=
  let ascii := '[' :: t ++ str "] visualization not available"
  { ascii := ascii, width := ascii.length, height := 1 }

/-- `AsciiVisualizer.generate` with the generator lookup abstracted: a
generator may be absent (`none`), return a visualization, or throw
(`Except.error` with the exception message, caught at this boundary).
The source's try/catch around `generator.generate(issue)` is exactly the
`Except` match. -/
def generateWith (gens : Str → Option (VIssue → Except Str Visualization))
    (issue : RawVIssue) : Visualization :=
  if !isValidIssue issue then
    generateErrorVisualization (str "Invalid issue data")
  else
    let t := issue.type.getD []
    match gens t with
    | none => generateFallback t
    | some g =>
      match g (toVIssue issue) with
      | .ok result => result
      | .error msg => generateErrorVisualization (str "Generation failed: " ++ msg)

/-- The builtin generator table: every supported type's generator,
none of which throws. -/
def builtinGens (t : Str) : Option (VIssue → Except Str Visualization) :=
  (generatorFor t).map (fun g i => Except.ok (g i))

/-- `AsciiVisualizer.generate` with the builtin registry. -/
def generate (issue : RawVIssue) : Visualization :=
  generateWith builtinGens issue

end BMS

namespace BMS

/-! ## Issue → VisualizerIssue conversion

Two implementations exist in the repository: the engine's
`LintEngine.mapToVisualizerIssue` (also copied in the hover provider),
which substitutes the default type `fixed-dimensions` for unmapped issue
kinds, and the stats-model `mapToVisualizerIssue` (the module defining
`buildStatsModel`), which maps unmapped kinds to `null` so no diagram is
produced. -/

/-- Generic association-list lookup (JS object property access). -/
def lookupAssoc {α : Type} (m : List (Str × α)) (k : Str) : Option α :=
  match m with
  | [] => none
  | (k0, v) :: rest => if k0 = k then some v else lookupAssoc rest k

/-- The shared 18-entry issue-kind → diagram-type table. -/
def visualizerTypeMap : List (Str × Str) :=
  [(str "Fixed width", str "fixed-dimensions"),
   (str "Fixed height", str "fixed-dimensions"),
   (str "Fixed box dimensions", str "fixed-dimensions"),
   (str "Fixed minimum dimension", str "fixed-dimensions"),
   (str "Viewport width overflow", str "viewport-overflow"),
   (str "Horizontal overflow risk", str "overflow-horizontal"),
   (str "Cumulative horizontal overflow", str "overflow-horizontal"),
   (str "No-wrap fixed width", str "nowrap-fixed"),
   (str "Non-wrapping fixed flex basis", str "flex-fragility"),
   (str "Flex container without wrap", str "flex-fragility"),
   (str "Rigid flex item", str "flex-fragility"),
   (str "Rigid grid tracks", str "grid-rigidity"),
   (str "Fixed pixel spacing", str "fixed-spacing"),
   (str "Media query instability", str "media-instability"),
   (str "Body overflow masking", str "overflow-masking"),
   (str "Fixed width exceeds breakpoint", str "breakpoint-exceeded"),
   (str "Absolute positioning rigidity", str "absolute-rigidity"),
   (str "Mixed box-sizing", str "box-inconsistency")]

/-- The coarse category derived from the diagram type by substring
tests, as in both conversion functions. -/
def categoryOfType (t : Str) : Str :=
  if strHas t (str "flex") then str "flex"
  else if strHas t (str "grid") then str "grid"
  else if strHas t (str "overflow") then str "overflow"
  else str "other"

/-- `LintEngine.mapToVisualizerIssue`: unmapped kinds fall back to the
default type `fixed-dimensions` (`typeMap[issue.issue] ||
'fixed-dimensions'`); every field is defaulted, so the result is always
a complete `VIssue`.  (`suggestion` reads `issue.correction ||
issue.suggestion || 'Use responsive units'`; detector issues carry their
suggestion in `correction`.) -/
def engineMapToVisualizerIssue (i : Issue) : VIssue :=
  let t := (lookupAssoc visualizerTypeMap i.issue).getD (str "fixed-dimensions")
  { type := t
    severity := jsOrStr i.severity (str "medium")
    line := (i.lineNumber.getD 0 : Nat)
    selector := jsOrStr (i.selector.getD []) (str "element")
    property := jsOrStr (i.property.getD []) (str "width")
    value := jsOrStr (i.value.getD []) (str "600px")
    suggestion := jsOrStr i.correction (str "Use responsive units")
    category := categoryOfType t }

/-- The stats-model type table: the shared 18 entries plus an explicit
`null` for `Layout property with !important`. -/
def statsTypeMap : List (Str × Option Str) :=
  (visualizerTypeMap.map (fun p => (p.1, some p.2))) ++
    [(str "Layout property with !important", none)]

/-- A pragmatic-mode configuration with the default thresholds, used to
exercise the threshold policy and detectors away from strict mode. -/
def pragConfig : Config :=
  { mode := str "pragmatic"
    fixedWidthThreshold := 320
    fixedHeightThreshold := 320
    fixedSpacingThreshold := 24
    ignoreSelectors := [] }

/-- The stats-model `mapToVisualizerIssue`: `null` (here `none`) when the
kind is unmapped or explicitly mapped to `null`, so no diagram is
generated for it. -/
def statsMapToVisualizerIssue (i : Issue) : Option VIssue :=
  let t : Option Str :=
    match lookupAssoc statsTypeMap i.issue with
    | none => none
    | some o => o
  match t with
  | none => none
  | some ty =>
    some
      { type := ty
        severity := jsOrStr i.severity (str "medium")
        line := (i.lineNumber.getD 0 : Nat)
        selector := jsOrStr (i.selector.getD []) (str "element")
        property := jsOrStr (i.property.getD []) (str "width")
        value := jsOrStr (i.value.getD []) (str "600px")
        suggestion := jsOrStr i.correction (str "Use responsive units")
        category := categoryOfType ty }

/-- A well-formed raw diagram input whose type has no registered
generator, exercising the fallback path of `AsciiVisualizer.generate`. -/
def rawMystery : RawVIssue :=
  { type := some (str "mystery"), severity := some (str "medium"), line := some 1,
    selector := some (str ".a"), property := some (str "w"), value := some (str "1px") }

end BMS

namespace BMS

/-! ## Lemmas: fuel sufficiency of the scanning loops

Each fuel-driven loop above consumes at least one character of its
remaining input per iteration, so fuel equal to the input length never
runs out; these lemmas record the strict-progress facts. -/

theorem pxMatchLen_pos (s : Str) :
    ∀ q n, pxMatchLen s = some (q, n) → 0 < n := by
  induction s with
  | nil => intro q n h; simp [pxMatchLen] at h
  | cons c rest ih =>
    intro q n h
    simp only [pxMatchLen] at h
    repeat' split at h
    all_goals
      first
        | (injection h with h1; injection h1 with hq hn; omega)
        | (rcases Option.map_eq_some'.mp h with ⟨⟨q0, n0⟩, hpm, hpair⟩;
           injection hpair with hq hn; have := ih q0 n0 hpm; omega)

theorem splitAtSub_len (hay needle pre post : Str)
    (h : splitAtSub hay needle = some (pre, post)) :
    pre.length + post.length ≤ hay.length ∧
      (needle ≠ [] → pre.length + post.length < hay.length) := by
  induction hay generalizing pre post with
  | nil =>
    simp only [splitAtSub] at h
    split at h
    · injection h with h1
      injection h1 with hpre hpost
      subst hpre; subst hpost
      rename_i hne
      refine ⟨by simp, fun hcon => ?_⟩
      cases needle with
      | nil => exact absurd rfl hcon
      | cons n ns => simp [List.isEmpty_iff] at hne
    · exact absurd h (by simp)
  | cons c rest ih =>
    simp only [splitAtSub] at h
    split at h
    · injection h with h1
      injection h1 with hpre hpost
      subst hpre; subst hpost
      simp only [List.length_nil, Nat.zero_add, List.length_drop, List.length_cons]
      refine ⟨by omega, fun hne => ?_⟩
      have hn1 : 1 ≤ needle.length := by
        cases needle with
        | nil => exact absurd rfl hne
        | cons a b => simp
      omega
    · rcases Option.map_eq_some'.mp h with ⟨⟨p0, q0⟩, hsp, hpair⟩
      simp only [Prod.mk.injEq] at hpair
      obtain ⟨hpre, hpost⟩ := hpair
      subst hpre; subst hpost
      obtain ⟨hle, hlt⟩ := ih p0 q0 hsp
      simp only [List.length_cons]
      exact ⟨by omega, fun hne => by have := hlt hne; omega⟩

theorem scanDepth_snd_len (depth : Nat) (s : Str) :
    (scanDepth depth s).2.length ≤ s.length := by
  induction s generalizing depth with
  | nil => simp [scanDepth]
  | cons c rest ih =>
    simp only [scanDepth]
    repeat' split
    all_goals try exact Nat.le_succ_of_le (ih _)
    all_goals simp

theorem dropWhile_len (p : Char → Bool) (s : Str) :
    (s.dropWhile p).length ≤ s.length := by
  induction s with
  | nil => simp
  | cons c rest ih =>
    simp only [List.dropWhile]
    split
    · exact Nat.le_succ_of_le ih
    · simp

theorem ruleMatch_rem_lt (s sel body rem : Str)
    (h : ruleMatch s = some (sel, body, rem)) : rem.length < s.length := by
  simp only [ruleMatch] at h
  split at h
  · exact absurd h (by simp)
  · rename_i sel0 afterBrace h1
    split at h
    · exact absurd h (by simp)
    · split at h
      · exact absurd h (by simp)
      · rename_i body0 rem0 h2
        simp only [Option.some.injEq, Prod.mk.injEq] at h
        obtain ⟨ha, hb, hc⟩ := h
        subst ha; subst hc
        have a1 := splitAtSub_len _ _ _ _ h1
        have a2 := splitAtSub_len _ _ _ _ h2
        have a3 := dropWhile_len (· = '\x7b') s
        have hne1 : ([ '\x7b' ] : Str) ≠ [] := by simp
        have hne2 : ([ '\x7d' ] : Str) ≠ [] := by simp
        have := a1.2 hne1
        have := a2.2 hne2
        omega

end BMS

namespace BMS

/-! ## Lemmas about the text formatter -/

theorem vlen_nil : vlen [] = 0 := by simp [vlen]

theorem vlen_one (c : Char) (h : isEmojiCh c = true) : vlen [c] = 2 := by
  simp [vlen, h]

theorem vlen_cons_nonemoji (c : Char) (r : Str) (h : isEmojiCh c = false) :
    vlen (c :: r) = 1 + vlen r := by
  cases r <;> simp [vlen, h]

theorem vlen_cons_fe0f (c d : Char) (r : Str)
    (hc : isEmojiCh c = true) (hd : d.toNat = 0xFE0F) :
    vlen (c :: d :: r) = 2 + vlen r := by
  simp [vlen, hc, hd]

theorem vlen_cons_nofe0f (c d : Char) (r : Str)
    (hc : isEmojiCh c = true) (hd : ¬d.toNat = 0xFE0F) :
    vlen (c :: d :: r) = 2 + vlen (d :: r) := by
  simp [vlen, hc, hd]

theorem fe0f_not_emoji (e : Char) (h : e.toNat = 0xFE0F) : isEmojiCh e = false := by
  simp [isEmojiCh, h]

theorem vlen_cons_ge (d : Char) (tail : Str) : vlen tail ≤ vlen (d :: tail) := by
  by_cases hd : isEmojiCh d = true
  · cases tail with
    | nil => simp [vlen_one d hd, vlen_nil]
    | cons e t2 =>
      by_cases hfe : e.toNat = 0xFE0F
      · rw [vlen_cons_fe0f d e t2 hd hfe,
          vlen_cons_nonemoji e t2 (fe0f_not_emoji e hfe)]
        omega
      · rw [vlen_cons_nofe0f d e t2 hd hfe]
        omega
  · rw [vlen_cons_nonemoji d tail (by simpa using hd)]
    omega

theorem len_le_vlen : ∀ s : Str, s.length ≤ vlen s
  | [] => by simp [vlen_nil]
  | [c] => by
    by_cases h : isEmojiCh c = true
    · rw [vlen_one c h]; simp
    · rw [vlen_cons_nonemoji c [] (by simpa using h), vlen_nil]; simp
  | c :: d :: rest => by
    by_cases hc : isEmojiCh c = true
    · by_cases hfe : d.toNat = 0xFE0F
      · rw [vlen_cons_fe0f c d rest hc hfe]
        have := len_le_vlen rest
        simp only [List.length_cons]
        omega
      · rw [vlen_cons_nofe0f c d rest hc hfe]
        have := len_le_vlen (d :: rest)
        simp only [List.length_cons] at this ⊢
        omega
    · rw [vlen_cons_nonemoji c (d :: rest) (by simpa using hc)]
      have := len_le_vlen (d :: rest)
      simp only [List.length_cons] at this ⊢
      omega

theorem truncAux_len (s : Str) : ∀ t c, (truncAux t c s).length ≤ t - c := by
  induction s with
  | nil => intro t c; simp [truncAux]
  | cons x rest ih =>
    intro t c
    simp only [truncAux]
    split
    · split
      · simp
      · simp only [List.length_cons]
        have := ih t (c + 2)
        omega
    · split
      · simp
      · simp only [List.length_cons]
        have := ih t (c + 1)
        omega

theorem truncate_len (s : Str) (m : Nat) (hm : 1 ≤ m) :
    (truncate s m).length ≤ m := by
  rw [truncate]
  split
  · exact le_trans (len_le_vlen s) (by assumption)
  · have := truncAux_len s (m - 1) 0
    simp only [List.length_append, List.length_cons, List.length_nil]
    omega

theorem pad_len (t : Str) (w : Nat) (a : Align) (hw : 1 ≤ w) :
    (pad t w a).length ≤ w := by
  rw [pad]
  split
  · exact truncate_len t w hw
  · rename_i hlt
    have hl := len_le_vlen t
    cases a <;> simp <;> omega

theorem truncAux_subset (s : Str) : ∀ t cur c, c ∈ truncAux t cur s → c ∈ s := by
  induction s with
  | nil => intro t cur c h; simp [truncAux] at h
  | cons x rest ih =>
    intro t cur c h
    simp only [truncAux] at h
    split at h
    · split at h
      · simp at h
      · rcases List.mem_cons.mp h with h1 | h2
        · simp [h1]
        · exact List.mem_cons_of_mem _ (ih _ _ _ h2)
    · split at h
      · simp at h
      · rcases List.mem_cons.mp h with h1 | h2
        · simp [h1]
        · exact List.mem_cons_of_mem _ (ih _ _ _ h2)

theorem truncate_subset (s : Str) (m : Nat) (c : Char) (h : c ∈ truncate s m) :
    c ∈ s ∨ c = '…' := by
  rw [truncate] at h
  split at h
  · exact Or.inl h
  · rcases List.mem_append.mp h with h1 | h2
    · exact Or.inl (truncAux_subset s _ _ _ h1)
    · simp at h2; exact Or.inr h2

theorem pad_subset (t : Str) (w : Nat) (a : Align) (c : Char) (h : c ∈ pad t w a) :
    c ∈ t ∨ c = ' ' ∨ c = '…' := by
  rw [pad] at h
  split at h
  · rcases truncate_subset t w c h with h1 | h2
    · exact Or.inl h1
    · exact Or.inr (Or.inr h2)
  · cases a <;> simp_all <;> tauto

theorem pad_of_le (t : Str) (w : Nat) (h : vlen t ≤ w) :
    pad t w .left = t ++ List.replicate (w - vlen t) ' ' := by
  rw [pad]
  split
  · rename_i hge
    have heq : vlen t = w := le_antisymm h hge
    rw [truncate]
    split
    · simp [heq]
    · omega
  · rfl

theorem vlen_append_le : ∀ x y : Str, vlen (x ++ y) ≤ vlen x + vlen y
  | [], y => by simp [vlen_nil]
  | [c], y => by
    by_cases hc : isEmojiCh c = true
    · rw [vlen_one c hc]
      cases y with
      | nil => simp [vlen_one c hc]
      | cons d tail =>
        rw [show [c] ++ d :: tail = c :: d :: tail from rfl]
        by_cases hfe : d.toNat = 0xFE0F
        · rw [vlen_cons_fe0f c d tail hc hfe]
          have := vlen_cons_ge d tail
          omega
        · rw [vlen_cons_nofe0f c d tail hc hfe]
    · rw [vlen_cons_nonemoji c [] (by simpa using hc), vlen_nil,
        show [c] ++ y = c :: y from rfl,
        vlen_cons_nonemoji c y (by simpa using hc)]
  | c :: d :: rest, y => by
    rw [show (c :: d :: rest) ++ y = c :: d :: (rest ++ y) from by simp]
    by_cases hc : isEmojiCh c = true
    · by_cases hfe : d.toNat = 0xFE0F
      · rw [vlen_cons_fe0f c d (rest ++ y) hc hfe, vlen_cons_fe0f c d rest hc hfe]
        have := vlen_append_le rest y
        omega
      · rw [vlen_cons_nofe0f c d (rest ++ y) hc hfe, vlen_cons_nofe0f c d rest hc hfe]
        have := vlen_append_le (d :: rest) y
        rw [show d :: (rest ++ y) = (d :: rest) ++ y from by simp]
        omega
    · rw [vlen_cons_nonemoji c (d :: (rest ++ y)) (by simpa using hc),
        vlen_cons_nonemoji c (d :: rest) (by simpa using hc)]
      have := vlen_append_le (d :: rest) y
      rw [show d :: (rest ++ y) = (d :: rest) ++ y from by simp]
      omega

theorem vlen_of_no_emoji (s : Str) (h : ∀ c ∈ s, isEmojiCh c = false) :
    vlen s = s.length := by
  induction s with
  | nil => simp [vlen_nil]
  | cons c rest ih =>
    rw [vlen_cons_nonemoji c rest (h c (by simp))]
    rw [ih (fun d hd => h d (List.mem_cons_of_mem _ hd))]
    simp [Nat.add_comm]

end BMS

namespace BMS

/-! ## Lemmas about newline splitting and substring search -/

theorem splitOnCh_ne_nil (c : Char) (l : Str) : splitOnCh c l ≠ [] := by
  cases l with
  | nil => simp [splitOnCh]
  | cons a rest =>
    simp only [splitOnCh]
    split
    · simp
    · split <;> simp

theorem splitOnCh_append_cons (c : Char) (u v : Str) :
    splitOnCh c (u ++ c :: v) = splitOnCh c u ++ splitOnCh c v := by
  induction u with
  | nil => simp [splitOnCh]
  | cons a u2 ih =>
    by_cases ha : a = c
    · subst ha
      simp [splitOnCh, ih]
    · simp only [List.cons_append, splitOnCh, if_neg ha, List.append_eq]
      rw [ih]
      cases hsp : splitOnCh c u2 with
      | nil => exact absurd hsp (splitOnCh_ne_nil c u2)
      | cons p ps => simp

theorem splitOnCh_not_mem (c : Char) (l : Str) (h : c ∉ l) :
    splitOnCh c l = [l] := by
  induction l with
  | nil => simp [splitOnCh]
  | cons a rest ih =>
    have ha : ¬a = c := fun he => h (by simp [he])
    simp only [splitOnCh, if_neg ha]
    rw [ih (fun hm => h (List.mem_cons_of_mem _ hm))]

theorem splitOnCh_piece_len (c : Char) (l : Str) :
    ∀ p ∈ splitOnCh c l, p.length ≤ l.length := by
  induction l with
  | nil => intro p hp; simp [splitOnCh] at hp; simp [hp]
  | cons a rest ih =>
    intro p hp
    simp only [splitOnCh] at hp
    split at hp
    · rcases List.mem_cons.mp hp with h1 | h2
      · simp [h1]
      · exact Nat.le_succ_of_le (ih p h2)
    · revert hp
      cases hsp : splitOnCh c rest with
      | nil => exact absurd hsp (splitOnCh_ne_nil c rest)
      | cons q qs =>
        intro hp
        rcases List.mem_cons.mp hp with h1 | h2
        · subst h1
          have : q.length ≤ rest.length := ih q (by rw [hsp]; simp)
          simp only [List.length_cons]
          omega
        · have : p.length ≤ rest.length := ih p (by rw [hsp]; exact List.mem_cons_of_mem _ h2)
          simp only [List.length_cons]
          omega

theorem splitOnCh_joinNL (ls : List Str) (h : ls ≠ []) :
    splitOnCh '\n' (joinNL ls) = ls.flatMap (fun l => splitOnCh '\n' l) := by
  induction ls with
  | nil => exact absurd rfl h
  | cons x rest ih =>
    cases rest with
    | nil => simp [joinNL]
    | cons y rest2 =>
      rw [show joinNL (x :: y :: rest2) = x ++ '\n' :: joinNL (y :: rest2) from rfl,
        splitOnCh_append_cons, ih (by simp)]
      simp

theorem startsWithStr_self (t : Str) : startsWithStr t t = true := by
  induction t with
  | nil => simp [startsWithStr]
  | cons c rest ih => simp [startsWithStr, ih]

theorem startsWithStr_append (t v : Str) : startsWithStr (t ++ v) t = true := by
  induction t with
  | nil => simp [startsWithStr]
  | cons c rest ih => simp [startsWithStr, ih]

theorem strHas_of_starts (hay t : Str) (h : startsWithStr hay t = true) :
    strHas hay t = true := by
  cases hay with
  | nil =>
    cases t with
    | nil => simp [strHas]
    | cons a b => simp [startsWithStr] at h
  | cons c rest => simp [strHas, h]

theorem strHas_append_right (a b t : Str) (h : strHas b t = true) :
    strHas (a ++ b) t = true := by
  induction a with
  | nil => simpa using h
  | cons c rest ih =>
    simp only [List.cons_append, strHas, Bool.or_eq_true]
    exact Or.inr ih

theorem strHas_decomp (pre t post : Str) :
    strHas (pre ++ t ++ post) t = true := by
  rw [List.append_assoc]
  apply strHas_append_right
  exact strHas_of_starts _ _ (startsWithStr_append t post)

theorem startsWithStr_extend (a : Str) (b t : Str) (h : startsWithStr a t = true) :
    startsWithStr (a ++ b) t = true := by
  induction t generalizing a with
  | nil => cases a <;> simp [startsWithStr]
  | cons x xs ih =>
    cases a with
    | nil => simp [startsWithStr] at h
    | cons c rest =>
      simp only [startsWithStr, List.cons_append, Bool.and_eq_true] at h ⊢
      exact ⟨h.1, ih rest h.2⟩

theorem strHas_nil_needle (s : Str) : strHas s [] = true := by
  cases s with
  | nil => simp [strHas]
  | cons c rest => simp [strHas, startsWithStr]

theorem strHas_append_left (a b t : Str) (h : strHas a t = true) :
    strHas (a ++ b) t = true := by
  induction a with
  | nil =>
    simp only [strHas] at h
    have ht : t = [] := by simpa [List.isEmpty_iff] using h
    subst ht
    simpa using strHas_nil_needle b
  | cons c rest ih =>
    simp only [List.cons_append, strHas, Bool.or_eq_true] at h ⊢
    rcases h with h1 | h2
    · exact Or.inl (startsWithStr_extend (c :: rest) b t h1)
    · exact Or.inr (ih h2)

theorem boxed_len (s : Str) (h : s.length ≤ 58) :
    ('│' :: s ++ [ '│' ]).length ≤ 60 := by
  simp
  omega

theorem stdLines_len_le (issue : VIssue) (tl : Str) (bc ac : List Str) :
    ∀ l ∈ stdLines issue tl bc ac, l.length ≤ 60 := by
  intro l hl
  simp only [stdLines, renderHeader, renderComparison, renderFooter,
    List.mem_append, List.mem_cons, List.mem_singleton, List.mem_map,
    List.not_mem_nil, or_false, List.mem_range] at hl
  rcases hl with ((h | h | h) | ((h | ⟨i, hi, h⟩) | h)) | h
  all_goals subst h
  all_goals
    first
      | exact boxed_len _ (pad_len _ 58 .left (by omega))
      | (simp; try omega
         done)
      | (have p1 := pad_len (str "  " ++ (str "BEFORE")) 29 Align.left (by omega)
         have p2 := pad_len (str "AFTER") (29 - 2) Align.left (by omega)
         simp only [List.cons_append, List.length_cons, List.length_append,
           List.length_singleton, List.length_nil]
         omega)

theorem stdLines_count (issue : VIssue) (tl : Str) (bc ac : List Str) :
    (stdLines issue tl bc ac).length = 6 + max bc.length ac.length := by
  simp [stdLines, renderHeader, renderComparison, renderFooter]
  omega

theorem natDigitsAux_digits :
    ∀ fuel n : Nat, ∀ c ∈ natDigitsAux fuel n, 48 ≤ c.toNat ∧ c.toNat ≤ 57
  | 0, n => by
    intro c hc
    simp only [natDigitsAux, List.mem_singleton] at hc
    subst hc
    have hlt : n % 10 < 10 := Nat.mod_lt _ (by omega)
    interval_cases hm : n % 10 <;> simp
  | fuel + 1, n => by
    intro c hc
    rw [natDigitsAux] at hc
    split at hc
    · rename_i h
      simp only [List.mem_singleton] at hc
      subst hc
      interval_cases n <;> simp
    · rename_i h
      rcases List.mem_append.mp hc with h1 | h2
      · exact natDigitsAux_digits fuel (n / 10) c h1
      · simp only [List.mem_singleton] at h2
        subst h2
        have hlt : n % 10 < 10 := Nat.mod_lt _ (by omega)
        interval_cases hm : n % 10 <;> simp

theorem natDigitsStr_digits (n : Nat) :
    ∀ c ∈ natDigitsStr n, 48 ≤ c.toNat ∧ c.toNat ≤ 57 :=
  natDigitsAux_digits n n

theorem intStr_noNL (i : Int) : '\n' ∉ intStr i := by
  intro hm
  rw [intStr] at hm
  split at hm
  · rcases List.mem_cons.mp hm with h1 | h2
    · exact absurd h1 (by decide)
    · have := natDigitsStr_digits _ _ h2
      simp at this
  · have := natDigitsStr_digits _ _ hm
    simp at this

theorem intStr_no_emoji (i : Int) : ∀ c ∈ intStr i, isEmojiCh c = false := by
  intro c hc
  rw [intStr] at hc
  have hrange : c = '-' ∨ (48 ≤ c.toNat ∧ c.toNat ≤ 57) := by
    split at hc
    · rcases List.mem_cons.mp hc with h1 | h2
      · exact Or.inl h1
      · exact Or.inr (natDigitsStr_digits _ _ h2)
    · exact Or.inr (natDigitsStr_digits _ _ hc)
  rcases hrange with h1 | ⟨h2, h3⟩
  · subst h1; decide
  · simp only [isEmojiCh]
    simp only [Bool.or_eq_false_iff, decide_eq_false_iff_not]
    refine ⟨⟨⟨⟨?_, ?_⟩, ?_⟩, ?_⟩, ?_⟩ <;> omega

theorem noNL_pad (t : Str) (w : Nat) (a : Align) (h : '\n' ∉ t) :
    '\n' ∉ pad t w a := by
  intro hm
  rcases pad_subset t w a _ hm with h1 | h2 | h3
  · exact h h1
  · exact absurd h2 (by decide)
  · exact absurd h3 (by decide)

theorem noNL_append (x y : Str) (hx : '\n' ∉ x) (hy : '\n' ∉ y) :
    '\n' ∉ x ++ y := by
  intro hm
  rcases List.mem_append.mp hm with h1 | h2
  · exact hx h1
  · exact hy h2

theorem noNL_replicate (n : Nat) (c : Char) (h : c ≠ '\n') :
    '\n' ∉ List.replicate n c := by
  intro hm
  exact h ((List.eq_of_mem_replicate hm).symm)

theorem getSeverityEmoji_ne_nl (s : Str) : getSeverityEmoji s ≠ '\n' := by
  rw [getSeverityEmoji]
  repeat' split
  all_goals decide

theorem getD_mem_or_nil (bc : List Str) (i : Nat) :
    bc.getD i [] ∈ bc ∨ bc.getD i [] = [] := by
  by_cases h : i < bc.length
  · left
    rw [List.getD_eq_getElem bc [] h]
    exact List.getElem_mem h
  · right
    rw [List.getD_eq_default bc [] (by omega)]

theorem stdLines_noNL (issue : VIssue) (tl : Str) (bc ac : List Str)
    (htl : '\n' ∉ ucStr tl)
    (hprop : '\n' ∉ issue.property) (hval : '\n' ∉ issue.value)
    (hsugg : '\n' ∉ issue.suggestion)
    (hbc : ∀ x ∈ bc, '\n' ∉ x) (hac : ∀ x ∈ ac, '\n' ∉ x) :
    ∀ l ∈ stdLines issue tl bc ac, '\n' ∉ l := by
  have hbcD : ∀ i, '\n' ∉ bc.getD i [] := by
    intro i
    rcases getD_mem_or_nil bc i with h | h
    · exact hbc _ h
    · rw [h]; simp
  have hacD : ∀ i, '\n' ∉ ac.getD i [] := by
    intro i
    rcases getD_mem_or_nil ac i with h | h
    · exact hac _ h
    · rw [h]; simp
  intro l hl
  simp only [stdLines, renderHeader, renderComparison, renderFooter,
    List.mem_append, List.mem_cons, List.mem_singleton, List.mem_map,
    List.not_mem_nil, or_false, List.mem_range] at hl
  rcases hl with ((h | h | h) | ((h | ⟨i, hi, h⟩) | h)) | h
  all_goals subst h
  · intro hm
    rcases List.mem_cons.mp hm with h1 | h2
    · exact absurd h1 (by decide)
    · rcases List.mem_append.mp h2 with h3 | h4
      · exact absurd ((List.eq_of_mem_replicate h3).symm) (by decide)
      · simp at h4
  · intro hm
    rcases List.mem_cons.mp hm with h1 | h2
    · exact absurd h1 (by decide)
    · rcases List.mem_append.mp h2 with h3 | h4
      · refine noNL_pad _ 58 .left ?_ h3
        intro hm2
        rcases List.mem_append.mp hm2 with h5 | h6
        · rcases List.mem_append.mp h5 with h7 | h8
          · rcases List.mem_append.mp h7 with h9 | h10
            · rcases List.mem_append.mp h9 with h11 | h12
              · exact htl h11
              · exact absurd h12 (by decide)
            · simp only [List.mem_singleton] at h10
              exact getSeverityEmoji_ne_nl issue.severity h10.symm
          · exact absurd h8 (by decide)
        · exact intStr_noNL issue.line h6
      · simp at h4
  · intro hm
    rcases List.mem_cons.mp hm with h1 | h2
    · exact absurd h1 (by decide)
    · rcases List.mem_append.mp h2 with h3 | h4
      · exact absurd ((List.eq_of_mem_replicate h3).symm) (by decide)
      · simp at h4
  · intro hm
    rcases List.mem_cons.mp hm with h1 | h2
    · exact absurd h1 (by decide)
    · rcases List.mem_append.mp h2 with h3 | h4
      · rcases List.mem_append.mp h3 with h5 | h6
        · rcases List.mem_append.mp h5 with h7 | h8
          · exact noNL_pad _ 29 .left (by decide) h7
          · simp at h8
        · exact noNL_pad _ 27 .left (by decide) h6
      · simp at h4
  · intro hm
    rcases List.mem_cons.mp hm with h1 | h2
    · exact absurd h1 (by decide)
    · rcases List.mem_append.mp h2 with h3 | h4
      · refine noNL_pad _ 58 .left ?_ h3
        intro hm2
        rcases List.mem_append.mp hm2 with h5 | h6
        · exact noNL_pad _ 29 .left (hbcD i) h5
        · rcases List.mem_cons.mp h6 with h7 | h8
          · exact absurd h7 (by decide)
          · exact noNL_pad _ 28 .left (hacD i) h8
      · simp at h4
  · intro hm
    rcases List.mem_cons.mp hm with h1 | h2
    · exact absurd h1 (by decide)
    · rcases List.mem_append.mp h2 with h3 | h4
      · refine noNL_pad _ 58 .left ?_ h3
        intro hm2
        rcases List.mem_append.mp hm2 with h5 | h6
        · refine noNL_pad _ 29 .left ?_ h5
          intro hm3
          rcases List.mem_append.mp hm3 with h7 | h8
          · exact absurd h7 (by decide)
          · rcases List.mem_cons.mp h8 with h9 | h10
            · exact absurd h9 (by decide)
            · rcases List.mem_append.mp h10 with h11 | h12
              · rcases List.mem_append.mp h11 with h13 | h14
                · exact hprop h13
                · exact absurd h14 (by decide)
              · exact hval h12
        · rcases List.mem_cons.mp h6 with h7 | h8
          · exact absurd h7 (by decide)
          · refine noNL_pad _ 28 .left ?_ h8
            intro hm3
            rcases List.mem_append.mp hm3 with h9 | h10
            · exact absurd h9 (by decide)
            · rcases List.mem_cons.mp h10 with h11 | h12
              · exact absurd h11 (by decide)
              · rw [jsOrStr] at h12
                split at h12
                · exact absurd h12 (by decide)
                · exact hsugg h12
      · simp at h4
  · intro hm
    rcases List.mem_cons.mp hm with h1 | h2
    · exact absurd h1 (by decide)
    · rcases List.mem_append.mp h2 with h3 | h4
      · exact absurd ((List.eq_of_mem_replicate h3).symm) (by decide)
      · simp at h4

theorem flatMap_singleton_of (ls : List Str) (f : Str → List Str)
    (h : ∀ l ∈ ls, f l = [l]) : ls.flatMap f = ls := by
  induction ls with
  | nil => simp
  | cons x rest ih =>
    simp only [List.flatMap_cons, h x (by simp)]
    rw [ih (fun l hl => h l (List.mem_cons_of_mem _ hl))]
    rfl

theorem stdLines_ne_nil (issue : VIssue) (tl : Str) (bc ac : List Str) :
    stdLines issue tl bc ac ≠ [] := by
  simp [stdLines, renderHeader]

theorem splitNL_count (issue : VIssue) (tl : Str) (bc ac : List Str)
    (hnl : ∀ l ∈ stdLines issue tl bc ac, '\n' ∉ l) :
    (splitOnCh '\n' (joinNL (stdLines issue tl bc ac))).length =
      6 + max bc.length ac.length := by
  rw [splitOnCh_joinNL _ (stdLines_ne_nil issue tl bc ac),
    flatMap_singleton_of _ _ (fun l hl => splitOnCh_not_mem '\n' l (hnl l hl)),
    stdLines_count]

theorem noNL_box_line (pre : Str) (a : Char) (n : Nat) (c : Char) (b : Str)
    (hpre : '\n' ∉ pre) (ha : a ≠ '\n') (hc : c ≠ '\n') (hb : '\n' ∉ b) :
    '\n' ∉ pre ++ a :: List.replicate n c ++ b := by
  intro hm
  rcases List.mem_append.mp hm with h1 | h2
  · rcases List.mem_append.mp h1 with h3 | h4
    · exact hpre h3
    · rcases List.mem_cons.mp h4 with h5 | h6
      · exact ha h5.symm
      · exact hc (List.eq_of_mem_replicate h6).symm
  · exact hb h2

theorem noNL_repl_append (n : Nat) (c : Char) (b : Str)
    (hc : c ≠ '\n') (hb : '\n' ∉ b) : '\n' ∉ List.replicate n c ++ b := by
  intro hm
  rcases List.mem_append.mp hm with h1 | h2
  · exact hc (List.eq_of_mem_replicate h1).symm
  · exact hb h2

theorem renderFixedBox_noNL (w c : ℚ) : ∀ x ∈ renderFixedBox w c, '\n' ∉ x := by
  intro x hx
  simp only [renderFixedBox, List.mem_cons, List.not_mem_nil, or_false] at hx
  rcases hx with h | h | h
  all_goals subst h
  all_goals intro hm
  all_goals try split at hm
  all_goals simp [str, List.mem_append, List.mem_cons, List.mem_replicate] at hm

theorem renderResponsiveBox_noNL (c : ℚ) : ∀ x ∈ renderResponsiveBox c, '\n' ∉ x := by
  intro x hx
  simp only [renderResponsiveBox, List.mem_cons, List.not_mem_nil, or_false] at hx
  rcases hx with h | h | h
  all_goals subst h
  all_goals intro hm
  all_goals simp [str, List.mem_append, List.mem_cons, List.mem_replicate] at hm

theorem renderViewportOverflow_noNL (w v : ℚ) (label : Str) (hl : '\n' ∉ label) :
    ∀ x ∈ renderViewportOverflow w v label, '\n' ∉ x := by
  intro x hx
  simp only [renderViewportOverflow, List.mem_cons, List.not_mem_nil, or_false] at hx
  rcases hx with h | h | h | h
  all_goals subst h
  all_goals intro hm
  all_goals try split at hm
  all_goals simp [str, List.mem_append, List.mem_cons, List.mem_replicate] at hm
  exact hl (by simpa [str] using hm)

theorem renderResponsiveViewport_noNL (v : ℚ) (label : Str) (hl : '\n' ∉ label) :
    ∀ x ∈ renderResponsiveViewport v label, '\n' ∉ x := by
  intro x hx
  simp only [renderResponsiveViewport, List.mem_cons, List.not_mem_nil, or_false] at hx
  rcases hx with h | h | h | h
  all_goals subst h
  all_goals intro hm
  all_goals simp [str, List.mem_append, List.mem_cons, List.mem_replicate] at hm
  exact hl (by simpa [str] using hm)

theorem renderFixedSpacing_noNL (s : ℚ) : ∀ x ∈ renderFixedSpacing s, '\n' ∉ x := by
  intro x hx
  simp only [renderFixedSpacing, List.mem_cons, List.not_mem_nil, or_false] at hx
  rcases hx with h | h | h | h | h
  all_goals subst h
  all_goals intro hm
  all_goals simp [str, List.mem_append, List.mem_cons, List.mem_replicate] at hm

theorem renderHorizontalOverflow_noNL (w c : ℚ) :
    ∀ x ∈ renderHorizontalOverflow w c, '\n' ∉ x := by
  intro x hx
  simp only [renderHorizontalOverflow] at hx
  rcases List.mem_append.mp hx with h1 | h2
  · rcases List.mem_append.mp h1 with h3 | h4
    · simp only [List.mem_cons, List.not_mem_nil, or_false] at h3
      rcases h3 with h | h
      all_goals subst h
      all_goals intro hm
      all_goals try split at hm
      all_goals simp [str, List.mem_append, List.mem_cons, List.mem_replicate] at hm
    · revert h4
      split
      · intro h4
        simp only [List.mem_singleton] at h4
        subst h4
        intro hm
        simp [str, List.mem_append, List.mem_cons, List.mem_replicate] at hm
      · intro h4
        simp at h4
  · simp only [List.mem_singleton] at h2
    subst h2
    intro hm
    simp [str, List.mem_append, List.mem_cons, List.mem_replicate] at hm

theorem renderContainedContent_noNL (c : ℚ) :
    ∀ x ∈ renderContainedContent c, '\n' ∉ x := by
  intro x hx
  simp only [renderContainedContent, List.mem_cons, List.not_mem_nil, or_false] at hx
  rcases hx with h | h | h
  all_goals subst h
  all_goals intro hm
  all_goals simp [str, List.mem_append, List.mem_cons, List.mem_replicate] at hm

theorem gsv_bounds (issue : VIssue) (tl : Str) (bc ac : List Str)
    (htl : '\n' ∉ ucStr tl)
    (hbc : ∀ x ∈ bc, '\n' ∉ x) (hac : ∀ x ∈ ac, '\n' ∉ x)
    (hlen : max bc.length ac.length ≤ 14) :
    (∀ p ∈ splitOnCh '\n' (generateStandardVisualization issue tl bc ac).ascii,
      p.length ≤ 60) ∧
    ('\n' ∉ issue.property → '\n' ∉ issue.value → '\n' ∉ issue.suggestion →
      (splitOnCh '\n' (generateStandardVisualization issue tl bc ac).ascii).length ≤ 20) := by
  constructor
  · intro p hp
    have hp2 : p ∈ splitOnCh '\n' (joinNL (stdLines issue tl bc ac)) := hp
    rw [splitOnCh_joinNL _ (stdLines_ne_nil issue tl bc ac)] at hp2
    rcases List.mem_flatMap.mp hp2 with ⟨l, hl, hpl⟩
    exact le_trans (splitOnCh_piece_len '\n' l p hpl) (stdLines_len_le issue tl bc ac l hl)
  · intro h1 h2 h3
    have hnl := stdLines_noNL issue tl bc ac htl h1 h2 h3 hbc hac
    show (splitOnCh '\n' (joinNL (stdLines issue tl bc ac))).length ≤ 20
    rw [splitNL_count issue tl bc ac hnl]
    omega

theorem strHas_joinNL (ls : List Str) (l t : Str) (hm : l ∈ ls)
    (h : strHas l t = true) : strHas (joinNL ls) t = true := by
  induction ls with
  | nil => simp at hm
  | cons x rest ih =>
    rcases List.mem_cons.mp hm with h1 | h2
    · subst h1
      cases rest with
      | nil => simpa [joinNL] using h
      | cons y r2 =>
        rw [show joinNL (l :: y :: r2) = l ++ '\n' :: joinNL (y :: r2) from rfl]
        exact strHas_append_left _ _ _ h
    · cases rest with
      | nil => simp at h2
      | cons y r2 =>
        rw [show joinNL (x :: y :: r2) = x ++ '\n' :: joinNL (y :: r2) from rfl]
        have := ih h2
        exact strHas_append_right x ('\n' :: joinNL (y :: r2)) t
          (by simpa [strHas] using Or.inr this)

end BMS

namespace BMS

/-! ## Lemmas supporting the claim theorems -/

theorem strHas_of_infix (hay t : Str) (h : t <:+: hay) : strHas hay t = true := by
  obtain ⟨s, u, hsu⟩ := h
  subst hsu
  exact strHas_decomp s t u

theorem strHas_pad_left (t : Str) (w : Nat) (x : Str) (h : vlen t ≤ w)
    (hx : strHas t x = true) : strHas (pad t w .left) x = true := by
  rw [pad_of_le t w h]
  exact strHas_append_left _ _ _ hx

theorem vlen_replicate_space (n : Nat) : vlen (List.replicate n ' ') = n := by
  rw [vlen_of_no_emoji]
  · simp
  · intro c hc
    rw [List.eq_of_mem_replicate hc]
    decide

theorem vlen_pad_le (t : Str) (w : Nat) (h : vlen t ≤ w) : vlen (pad t w .left) ≤ w := by
  rw [pad_of_le t w h]
  have h1 := vlen_append_le t (List.replicate (w - vlen t) ' ')
  rw [vlen_replicate_space] at h1
  omega

theorem lookupAssoc_append {α : Type} (a b : List (Str × α)) (k : Str) :
    lookupAssoc (a ++ b) k =
      match lookupAssoc a k with
      | some v => some v
      | none => lookupAssoc b k := by
  induction a with
  | nil => simp [lookupAssoc]
  | cons p rest ih =>
    simp only [List.cons_append, lookupAssoc]
    split
    · rfl
    · exact ih

theorem lookupAssoc_map {α β : Type} (f : α → β) (m : List (Str × α)) (k : Str) :
    lookupAssoc (m.map (fun p => (p.1, f p.2))) k = (lookupAssoc m k).map f := by
  induction m with
  | nil => simp [lookupAssoc]
  | cons p rest ih =>
    simp only [List.map_cons, lookupAssoc]
    split
    · rfl
    · exact ih

theorem renderFixedBox_len (w c : ℚ) : (renderFixedBox w c).length = 3 := by
  simp [renderFixedBox]

theorem renderViewportOverflow_len (w v : ℚ) (l : Str) :
    (renderViewportOverflow w v l).length = 4 := by
  simp [renderViewportOverflow]

theorem renderFixedSpacing_len (s : ℚ) : (renderFixedSpacing s).length = 5 := by
  simp [renderFixedSpacing]

theorem renderHorizontalOverflow_len_le (w c : ℚ) :
    (renderHorizontalOverflow w c).length ≤ 4 := by
  simp only [renderHorizontalOverflow]
  split <;> simp

theorem stdViz_bounds (issue : VIssue) (tl : Str) (bc ac : List Str)
    (htl : '\n' ∉ ucStr tl)
    (hbc : ∀ x ∈ bc, '\n' ∉ x) (hac : ∀ x ∈ ac, '\n' ∉ x)
    (hlen : max bc.length ac.length ≤ 14)
    (hp : '\n' ∉ issue.property) (hv : '\n' ∉ issue.value) (hs : '\n' ∉ issue.suggestion) :
    (∀ p ∈ splitOnCh '\n' (generateStandardVisualization issue tl bc ac).ascii,
       p.length ≤ 60) ∧
    (splitOnCh '\n' (generateStandardVisualization issue tl bc ac).ascii).length ≤ 20 := by
  obtain ⟨h1, h2⟩ := gsv_bounds issue tl bc ac htl hbc hac hlen
  exact ⟨h1, h2 hp hv hs⟩

theorem strHas_boxed (mid tok : Str) (hm : vlen mid ≤ 58) (ht : strHas mid tok = true) :
    strHas ('│' :: pad mid 58 .left ++ [ '│' ]) tok = true := by
  have h1 : strHas (pad mid 58 .left ++ [ '│' ]) tok = true :=
    strHas_append_left _ _ _ (strHas_pad_left mid 58 tok hm ht)
  exact strHas_append_right [ '│' ] _ tok h1

end BMS

namespace BMS

/-! ## Claim theorems -/

/-- Claim C1: `shouldReportFixedValue(kind, v)` returns true for every
kind and every value (including non-finite ones, modelled as `none`)
when the configured mode is `strict`; in `pragmatic` mode it returns
true for every non-finite value, and for finite `v` it returns true iff
`v` strictly exceeds the threshold of the kind, where `width`,
`flex-basis` and `grid-track` share the fixed-width threshold, `height`
uses the fixed-height threshold, and `spacing` the fixed-spacing
threshold; a value exactly at the threshold is not reported. -/
theorem claim1_threshold_policy (cfg : Config) :
    (cfg.mode = str "strict" →
      ∀ k v, shouldReportFixedValue cfg k v = true) ∧
    (cfg.mode = str "pragmatic" →
      (∀ k, shouldReportFixedValue cfg k none = true) ∧
      (∀ x : ℚ,
        shouldReportFixedValue cfg .width (some x) = decide (x > cfg.fixedWidthThreshold) ∧
        shouldReportFixedValue cfg .flexBasis (some x) = decide (x > cfg.fixedWidthThreshold) ∧
        shouldReportFixedValue cfg .gridTrack (some x) = decide (x > cfg.fixedWidthThreshold) ∧
        shouldReportFixedValue cfg .height (some x) = decide (x > cfg.fixedHeightThreshold) ∧
        shouldReportFixedValue cfg .spacing (some x) = decide (x > cfg.fixedSpacingThreshold)) ∧
      (shouldReportFixedValue cfg .width (some cfg.fixedWidthThreshold) = false ∧
       shouldReportFixedValue cfg .height (some cfg.fixedHeightThreshold) = false ∧
       shouldReportFixedValue cfg .spacing (some cfg.fixedSpacingThreshold) = false)) := by
  obtain ⟨m, wt, ht, st, ign⟩ := cfg
  constructor
  · intro hm k v
    simp only at hm
    subst hm
    rfl
  · intro hm
    simp only at hm
    subst hm
    refine ⟨fun k => rfl, fun x => ⟨rfl, rfl, rfl, rfl, rfl⟩, ?_, ?_, ?_⟩
    · exact show decide ((wt : ℚ) > wt) = false from decide_eq_false (lt_irrefl wt)
    · exact show decide ((ht : ℚ) > ht) = false from decide_eq_false (lt_irrefl ht)
    · exact show decide ((st : ℚ) > st) = false from decide_eq_false (lt_irrefl st)

/-- Witness for C1 at concrete configurations: strict mode reports a
non-finite width, and pragmatic mode stays silent exactly at the
320px threshold. -/
theorem claim1_threshold_policy_witness :
    shouldReportFixedValue defaultConfig .width none = true ∧
    shouldReportFixedValue pragConfig .width (some 320) = false :=
  ⟨(claim1_threshold_policy defaultConfig).1 rfl .width none,
   ((claim1_threshold_policy pragConfig).2 rfl).2.2.1⟩

end BMS

namespace BMS

/-- Claim C2: on `.card { width: 500px; height: 300px; }` in strict mode
(the default configuration), the FixedDimensions detector emits exactly
three issues — Fixed width (medium), Fixed height (medium) and the
compound Fixed box dimensions (critical) — all with selector `.card`. -/
theorem claim2_fixed_dimensions_scenario :
    detectFixedDimensions defaultConfig
      (parseRules (str ".card \x7b width: 500px; height: 300px; \x7d")) =
    [{ issue := str "Fixed width"
       explanation := str "Fixed pixel width reduces responsiveness"
       viewportImpact := str "Constrained layout on smaller viewports"
       severity := str "medium"
       correction := str "Use relative units or max-width"
       property := some (str "width")
       value := some (str "500px")
       selector := some (str ".card") },
     { issue := str "Fixed height"
       explanation := str "Fixed pixel height can cause overflow"
       viewportImpact := str "Vertical clipping on shorter viewports"
       severity := str "medium"
       correction := str "Use min-height or auto with constraints"
       property := some (str "height")
       value := some (str "300px")
       selector := some (str ".card") },
     { issue := str "Fixed box dimensions"
       explanation := str "Fixed width and height create rigid boxes"
       viewportImpact := str "Breaks responsive scaling across devices"
       severity := str "critical"
       correction := str "Prefer fluid dimensions with min/max constraints"
       selector := some (str ".card") }] := by
  decide

end BMS

namespace BMS

/-- Claim C3: the BreakpointFixedWidth detector fires only on
media-tagged rules whose condition contains a pixel token: a rule with
no at-rule, or whose condition has no `px` token, or whose fixed-px
width does not exceed the breakpoint number, produces nothing; a
qualifying rule produces exactly one critical "Fixed width exceeds
breakpoint" issue carrying its selector; the detector processes rules
independently (per-rule flatMap); and on the scenario input
`@media (max-width: 768px) { .content { width: 900px; } }` it emits
exactly one critical issue for selector `.content`. -/
theorem claim3_breakpoint_fixed_width :
    (∀ (cfg : Config) (r : Rule), r.atRule = none →
       detectBreakpointFixedWidth cfg [r] = []) ∧
    (∀ (cfg : Config) (r : Rule) (cond : Str), r.atRule = some cond →
       condPxNat cond = none → detectBreakpointFixedWidth cfg [r] = []) ∧
    (∀ (cfg : Config) (r : Rule) (cond : Str) (bp : Nat) (w digits : Str),
       r.atRule = some cond → condPxNat cond = some bp →
       getDecl r.declarations (str "width") = some w →
       firstPxDigits w = some digits → digitsToNat digits ≤ bp →
       detectBreakpointFixedWidth cfg [r] = []) ∧
    (∀ (cfg : Config) (r : Rule) (cond : Str) (bp : Nat) (w digits : Str),
       r.atRule = some cond → condPxNat cond = some bp →
       getDecl r.declarations (str "width") = some w →
       firstPxDigits w = some digits → digitsToNat digits > bp →
       detectBreakpointFixedWidth cfg [r] =
         [{ issue := str "Fixed width exceeds breakpoint"
            explanation := str "Width in px inside max-width media exceeds the breakpoint"
            viewportImpact := str "Guaranteed overflow below breakpoint"
            severity := str "critical"
            correction := str "Use fluid width or cap with max-width ≤ breakpoint"
            selector := some r.selector }]) ∧
    (∀ (cfg : Config) (rules : List Rule),
       detectBreakpointFixedWidth cfg rules =
         rules.flatMap (fun r => detectBreakpointFixedWidth cfg [r])) ∧
    detectBreakpointFixedWidth defaultConfig
      (parseRules (str "@media (max-width: 768px) \x7b .content \x7b width: 900px; \x7d \x7d")) =
      [{ issue := str "Fixed width exceeds breakpoint"
         explanation := str "Width in px inside max-width media exceeds the breakpoint"
         viewportImpact := str "Guaranteed overflow below breakpoint"
         severity := str "critical"
         correction := str "Use fluid width or cap with max-width ≤ breakpoint"
         selector := some (str ".content") }] := by
  refine ⟨?_, ?_, ?_, ?_, ?_, ?_⟩
  · intro cfg r h
    simp [detectBreakpointFixedWidth, h]
  · intro cfg r cond h1 h2
    simp [detectBreakpointFixedWidth, h1, h2]
  · intro cfg r cond bp w digits h1 h2 h3 h4 h5
    simp [detectBreakpointFixedWidth, h1, h2, h3, h4]
    omega
  · intro cfg r cond bp w digits h1 h2 h3 h4 h5
    simp [detectBreakpointFixedWidth, h1, h2, h3, h4, h5]
  · intro cfg rules
    simp [detectBreakpointFixedWidth]
  · decide

/-- Claim C3: the BreakpointFixedWidth detector fires only on
media-tagged rules whose condition contains a pixel token: a rule with
no at-rule, or whose condition has no `px` token, or whose fixed-px
width does not exceed the breakpoint number, produces nothing; a
qualifying rule produces exactly one critical "Fixed width exceeds
breakpoint" issue carrying its selector; the detector processes rules
independently (per-rule flatMap); and on the scenario input
`@media (max-width: 768px) { .content { width: 900px; } }` it emits
exactly one critical issue for selector `.content`. -/
theorem claim3_breakpoint_fixed_width_witness :
    detectBreakpointFixedWidth defaultConfig
      [{ selector := str ".content"
         declarations := [(str "width", str "400px")]
         atRule := some (str "(max-width: 768px)") }] = [] :=
  claim3_breakpoint_fixed_width.2.2.1 defaultConfig _ (str "(max-width: 768px)") 768
    (str "400px") (str "400") rfl (by decide) (by decide) (by decide) (by decide)

/-- Claim C4 (amended): `detectIssues` applies the `ignoreSelectors`
filter upfront, to the parsed rule list, before any detector runs —
including BoxModel and MediaConflicts: the structured path is exactly
the twelve detectors over `upfrontFiltered`, and no rule whose
lower-cased selector contains a non-blank ignore pattern survives the
filter.  The original claim's exception for BoxModel and MediaConflicts
does not hold; see the counterexample. -/
theorem claim4_upfront_ignore_filter :
    (∀ (css : Str) (cfg : Config),
       detectIssuesCore css cfg = runDetectors cfg (upfrontFiltered cfg (parseRules css))) ∧
    (∀ (cfg : Config) (rules : List Rule) (r : Rule), r ∈ upfrontFiltered cfg rules →
       ∀ p ∈ cfg.ignoreSelectors, (jsTrim p).isEmpty = false →
         strHas (lcStr r.selector) (lcStr p) = false) := by
  refine ⟨fun css cfg => rfl, ?_⟩
  intro cfg rules r hr p hp hpb
  unfold upfrontFiltered at hr
  by_cases hpe : ((cfg.ignoreSelectors.filter (fun s => !(jsTrim s).isEmpty)).map lcStr).isEmpty = true
  · exfalso
    have hmem : p ∈ cfg.ignoreSelectors.filter (fun s => !(jsTrim s).isEmpty) :=
      List.mem_filter.mpr ⟨hp, by simp [hpb]⟩
    have h2 : lcStr p ∈ (cfg.ignoreSelectors.filter (fun s => !(jsTrim s).isEmpty)).map lcStr :=
      List.mem_map_of_mem _ hmem
    rw [List.isEmpty_iff] at hpe
    simp [hpe] at h2
  · rw [if_neg hpe] at hr
    have hpred := (List.mem_filter.mp hr).2
    have hmem : p ∈ cfg.ignoreSelectors.filter (fun s => !(jsTrim s).isEmpty) :=
      List.mem_filter.mpr ⟨hp, by simp [hpb]⟩
    have h2 : lcStr p ∈ (cfg.ignoreSelectors.filter (fun s => !(jsTrim s).isEmpty)).map lcStr :=
      List.mem_map_of_mem _ hmem
    simp only [Bool.not_eq_true', List.any_eq_false] at hpred
    simpa using hpred (lcStr p) h2

/-- Claim C4 (amended): `detectIssues` applies the `ignoreSelectors`
filter upfront, to the parsed rule list, before any detector runs —
including BoxModel and MediaConflicts: the structured path is exactly
the twelve detectors over `upfrontFiltered`, and no rule whose
lower-cased selector contains a non-blank ignore pattern survives the
filter.  The original claim's exception for BoxModel and MediaConflicts
does not hold; see the counterexample. -/
theorem claim4_upfront_ignore_filter_witness :
    strHas (lcStr (str ".other")) (lcStr (str "ignored")) = false :=
  claim4_upfront_ignore_filter.2
    { mode := str "strict", fixedWidthThreshold := 320, fixedHeightThreshold := 320,
      fixedSpacingThreshold := 24, ignoreSelectors := [str "ignored"] }
    [{ selector := str ".other", declarations := [], atRule := none }]
    { selector := str ".other", declarations := [], atRule := none }
    (by decide) (str "ignored") (by decide) (by decide)

/-- Counterexample to C4 as stated: an ignored rule's `box-sizing`
declaration does not count toward the document-level Mixed box-sizing
decision.  With `ignored` in `ignoreSelectors`, a document whose only
border-box declaration sits under `.ignored` yields no issue at all,
while the same document under the default configuration yields the
Mixed box-sizing issue. -/
theorem claim4_boxmodel_counterexample :
    detectIssuesCore
      (str ".ignored \x7b box-sizing: border-box; \x7d .other \x7b box-sizing: content-box; \x7d")
      { mode := str "strict", fixedWidthThreshold := 320, fixedHeightThreshold := 320,
        fixedSpacingThreshold := 24, ignoreSelectors := [str "ignored"] } = [] ∧
    detectIssuesCore
      (str ".ignored \x7b box-sizing: border-box; \x7d .other \x7b box-sizing: content-box; \x7d")
      defaultConfig =
      [{ issue := str "Mixed box-sizing"
         explanation := str "Mixed box-sizing leads to inconsistent sizing calculations"
         viewportImpact := str "Inconsistent widths across components"
         severity := str "medium"
         correction := str "Standardize on border-box for layout consistency"
         selector := some (str "*") }] := by
  constructor <;> decide

/-- Claim C5 (amended): for every issue type with a registered
generator and every issue whose property, value and suggestion contain
no newline character, every line of the generated diagram is at most 60
characters long and the diagram has at most 20 lines.  Without the
newline restriction the line-count bound fails; see the
counterexample. -/
theorem claim5_diagram_size (t : Str) (g : VIssue → Visualization) (issue : VIssue)
    (hg : generatorFor t = some g)
    (hp : '\n' ∉ issue.property) (hv : '\n' ∉ issue.value) (hs : '\n' ∉ issue.suggestion) :
    (∀ p ∈ splitOnCh '\n' (g issue).ascii, p.length ≤ 60) ∧
    (splitOnCh '\n' (g issue).ascii).length ≤ 20 := by
  simp only [generatorFor] at hg
  by_cases h1 : t = str "fixed-dimensions"
  · rw [if_pos h1] at hg
    cases hg
    exact stdViz_bounds issue (str "Fixed Dimensions")
      (renderFixedBox (jsOrNum (parseValue issue.value) 600) 400) (renderResponsiveBox 400)
      (by decide) (renderFixedBox_noNL _ _) (renderResponsiveBox_noNL _)
      (by rw [renderFixedBox_len]; decide) hp hv hs
  · rw [if_neg h1] at hg
    by_cases h2 : t = str "viewport-overflow"
    · rw [if_pos h2] at hg
      cases hg
      exact stdViz_bounds issue (str "Viewport Overflow")
        (renderViewportOverflow (jsOrNum (parseValue issue.value) 1200) 375 (str "Mobile 375px")) (renderResponsiveViewport 375 (str "Mobile 375px"))
        (by decide) (renderViewportOverflow_noNL _ _ _ (by decide)) (renderResponsiveViewport_noNL _ _ (by decide))
        (by rw [renderViewportOverflow_len]; decide) hp hv hs
    · rw [if_neg h2] at hg
      by_cases h3 : t = str "flex-fragility"
      · rw [if_pos h3] at hg
        cases hg
        exact stdViz_bounds issue (str "Flex Fragility")
          renderRigidFlex renderFlexibleFlex
          (by decide) (by decide) (by decide)
          (by decide) hp hv hs
      · rw [if_neg h3] at hg
        by_cases h4 : t = str "grid-rigidity"
        · rw [if_pos h4] at hg
          cases hg
          exact stdViz_bounds issue (str "Grid Rigidity")
            renderRigidGrid renderResponsiveGrid
            (by decide) (by decide) (by decide)
            (by decide) hp hv hs
        · rw [if_neg h4] at hg
          by_cases h5 : t = str "fixed-spacing"
          · rw [if_pos h5] at hg
            cases hg
            exact stdViz_bounds issue (str "Fixed Spacing")
              (renderFixedSpacing (jsOrNum (parseValue issue.value) 40)) renderResponsiveSpacing
              (by decide) (renderFixedSpacing_noNL _) (by decide)
              (by rw [renderFixedSpacing_len]; decide) hp hv hs
          · rw [if_neg h5] at hg
            by_cases h6 : t = str "media-instability"
            · rw [if_pos h6] at hg
              cases hg
              exact stdViz_bounds issue (str "Media Instability")
                renderUnstableMedia renderStableMedia
                (by decide) (by decide) (by decide)
                (by decide) hp hv hs
            · rw [if_neg h6] at hg
              by_cases h7 : t = str "overflow-masking"
              · rw [if_pos h7] at hg
                cases hg
                exact stdViz_bounds issue (str "Overflow Masking")
                  renderMaskedOverflow renderVisibleOverflow
                  (by decide) (by decide) (by decide)
                  (by decide) hp hv hs
              · rw [if_neg h7] at hg
                by_cases h8 : t = str "breakpoint-exceeded"
                · rw [if_pos h8] at hg
                  cases hg
                  exact stdViz_bounds issue (str "Breakpoint Exceeded")
                    renderExceededBreakpoint renderAdjustedBreakpoint
                    (by decide) (by decide) (by decide)
                    (by decide) hp hv hs
                · rw [if_neg h8] at hg
                  by_cases h9 : t = str "absolute-rigidity"
                  · rw [if_pos h9] at hg
                    cases hg
                    exact stdViz_bounds issue (str "Absolute Rigidity")
                      renderAbsolutePositioning renderFlexiblePositioning
                      (by decide) (by decide) (by decide)
                      (by decide) hp hv hs
                  · rw [if_neg h9] at hg
                    by_cases h10 : t = str "box-inconsistency"
                    · rw [if_pos h10] at hg
                      cases hg
                      exact stdViz_bounds issue (str "Box Inconsistency")
                        renderContentBox renderBorderBox
                        (by decide) (by decide) (by decide)
                        (by decide) hp hv hs
                    · rw [if_neg h10] at hg
                      by_cases h11 : t = str "overflow-horizontal"
                      · rw [if_pos h11] at hg
                        cases hg
                        exact stdViz_bounds issue (str "Horizontal Overflow")
                          (renderHorizontalOverflow (jsOrNum (parseValue issue.value) 800) 400) (renderContainedContent 400)
                          (by decide) (renderHorizontalOverflow_noNL _ _) (renderContainedContent_noNL _)
                          (by have ha := renderHorizontalOverflow_len_le (jsOrNum (parseValue issue.value) 800) 400; have hb : (renderContainedContent 400).length = 3 := (by decide); omega) hp hv hs
                      · rw [if_neg h11] at hg
                        by_cases h12 : t = str "nowrap-fixed"
                        · rw [if_pos h12] at hg
                          cases hg
                          exact stdViz_bounds issue (str "Nowrap Fixed")
                            renderNowrapOverflow renderWrappedText
                            (by decide) (by decide) (by decide)
                            (by decide) hp hv hs
                        · rw [if_neg h12] at hg
                          exact Option.noConfusion hg

/-- Witness for C5 at a concrete fixed-dimensions issue. -/
theorem claim5_diagram_size_witness :
    (splitOnCh '\n' (genFixedDimensions
      { type := str "fixed-dimensions", severity := str "medium", line := 5,
        selector := str ".a", property := str "width", value := str "500px",
        suggestion := str "Use max-width", category := str "other" }).ascii).length ≤ 20 :=
  (claim5_diagram_size (str "fixed-dimensions") genFixedDimensions
    { type := str "fixed-dimensions", severity := str "medium", line := 5,
      selector := str ".a", property := str "width", value := str "500px",
      suggestion := str "Use max-width", category := str "other" }
    rfl (by decide) (by decide) (by decide)).2

/-- Counterexample to C5 as stated: a valid fixed-dimensions issue
whose value embeds 21 newline characters produces a diagram of more
than 20 lines. -/
theorem claim5_line_count_counterexample :
    isValidIssue
      { type := some (str "fixed-dimensions"), severity := some (str "medium"),
        line := some 5, selector := some (str ".a"), property := some (str "w"),
        value := some (List.replicate 21 '\n' ++ str "1") } = true ∧
    20 < (splitOnCh '\n' (generate
      { type := some (str "fixed-dimensions"), severity := some (str "medium"),
        line := some 5, selector := some (str ".a"), property := some (str "w"),
        value := some (List.replicate 21 '\n' ++ str "1") }).ascii).length := by
  constructor <;> decide

/-- Claim C6 (amended): whenever the measurement and title texts fit
their columns (visual width at most 29 for the BEFORE measurements
column, 28 for the AFTER column, 58 for the title), the diagram contains
the literal token `L<line>`, the issue's value verbatim, the suggestion
(or its default `Use responsive units`) verbatim — in particular a
non-empty suggestion itself — and both status markers `✖` (problem) and
`✓` (solution) together with the `BEFORE`/`AFTER` labels.  Without the
width hypotheses the containment fails by truncation; see the
counterexample. -/
theorem claim6_diagram_tokens (issue : VIssue) (tl : Str) (bc ac : List Str)
    (h1 : vlen (str "  " ++ [ '✖' ] ++ ' ' :: (issue.property ++ str ": " ++ issue.value)) ≤ 29)
    (h2 : vlen ([ '✓' ] ++ ' ' :: jsOrStr issue.suggestion (str "Use responsive units")) ≤ 28)
    (h3 : vlen (ucStr tl ++ str " • " ++ [getSeverityEmoji issue.severity] ++ str " • L" ++
      intStr issue.line) ≤ 58) :
    strHas (generateStandardVisualization issue tl bc ac).ascii ('L' :: intStr issue.line) = true ∧
    strHas (generateStandardVisualization issue tl bc ac).ascii issue.value = true ∧
    strHas (generateStandardVisualization issue tl bc ac).ascii
      (jsOrStr issue.suggestion (str "Use responsive units")) = true ∧
    (issue.suggestion ≠ [] →
      strHas (generateStandardVisualization issue tl bc ac).ascii issue.suggestion = true) ∧
    strHas (generateStandardVisualization issue tl bc ac).ascii (str "BEFORE") = true ∧
    strHas (generateStandardVisualization issue tl bc ac).ascii (str "AFTER") = true ∧
    strHas (generateStandardVisualization issue tl bc ac).ascii [ '✖' ] = true ∧
    strHas (generateStandardVisualization issue tl bc ac).ascii [ '✓' ] = true := by
  have hmemT : ('│' :: pad (ucStr tl ++ str " • " ++ [getSeverityEmoji issue.severity] ++
      str " • L" ++ intStr issue.line) 58 .left ++ [ '│' ]) ∈ stdLines issue tl bc ac := by
    simp [stdLines, renderHeader]
  have hmemL : ('│' :: (pad (str "  " ++ str "BEFORE") 29 .left ++ [ '→' ] ++
      pad (str "AFTER") (29 - 2) .left) ++ [ '│' ]) ∈ stdLines issue tl bc ac := by
    simp [stdLines, renderComparison]
  have hmemM : ('│' :: pad (pad (str "  " ++ [ '✖' ] ++ ' ' ::
      (issue.property ++ str ": " ++ issue.value)) 29 .left ++ ' ' ::
      pad ([ '✓' ] ++ ' ' :: jsOrStr issue.suggestion (str "Use responsive units"))
        (29 - 1) .left) 58 .left ++ [ '│' ]) ∈ stdLines issue tl bc ac := by
    simp [stdLines, renderComparison]
  have hvm : vlen (pad (str "  " ++ [ '✖' ] ++ ' ' ::
      (issue.property ++ str ": " ++ issue.value)) 29 .left ++ ' ' ::
      pad ([ '✓' ] ++ ' ' :: jsOrStr issue.suggestion (str "Use responsive units"))
        (29 - 1) .left) ≤ 58 := by
    have ha := vlen_pad_le _ 29 h1
    have hb := vlen_pad_le ([ '✓' ] ++ ' ' :: jsOrStr issue.suggestion
      (str "Use responsive units")) (29 - 1) h2
    have hc := vlen_append_le (pad (str "  " ++ [ '✖' ] ++ ' ' ::
      (issue.property ++ str ": " ++ issue.value)) 29 .left) (' ' ::
      pad ([ '✓' ] ++ ' ' :: jsOrStr issue.suggestion (str "Use responsive units"))
        (29 - 1) .left)
    rw [vlen_cons_nonemoji ' ' _ (by decide)] at hc
    omega
  have hl1 : strHas (ucStr tl ++ str " • " ++ [getSeverityEmoji issue.severity] ++
      str " • L" ++ intStr issue.line) ('L' :: intStr issue.line) = true := by
    have hsplit : ucStr tl ++ str " • " ++ [getSeverityEmoji issue.severity] ++ str " • L" ++
        intStr issue.line
        = (ucStr tl ++ str " • " ++ [getSeverityEmoji issue.severity] ++ str " • ") ++
          ('L' :: intStr issue.line) ++ [] := by
      rw [show str " • L" = str " • " ++ [ 'L' ] from by decide]
      simp
    rw [hsplit]
    exact strHas_decomp _ _ _
  have hA : strHas (generateStandardVisualization issue tl bc ac).ascii
      ('L' :: intStr issue.line) = true :=
    strHas_joinNL _ _ _ hmemT (strHas_boxed _ _ h3 hl1)
  have hv1 : strHas (str "  " ++ [ '✖' ] ++ ' ' :: (issue.property ++ str ": " ++ issue.value))
      issue.value = true :=
    strHas_of_infix _ _ ⟨(str "  " ++ [ '✖' ]) ++ (' ' :: issue.property) ++ str ": ", [],
      by simp⟩
  have hv3 : strHas (pad (str "  " ++ [ '✖' ] ++ ' ' ::
      (issue.property ++ str ": " ++ issue.value)) 29 .left ++ ' ' ::
      pad ([ '✓' ] ++ ' ' :: jsOrStr issue.suggestion (str "Use responsive units"))
        (29 - 1) .left) issue.value = true :=
    strHas_append_left _ _ _ (strHas_pad_left _ 29 _ h1 hv1)
  have hB : strHas (generateStandardVisualization issue tl bc ac).ascii issue.value = true :=
    strHas_joinNL _ _ _ hmemM (strHas_boxed _ _ hvm hv3)
  have hs1 : strHas ([ '✓' ] ++ ' ' :: jsOrStr issue.suggestion (str "Use responsive units"))
      (jsOrStr issue.suggestion (str "Use responsive units")) = true :=
    strHas_of_infix _ _ ⟨[ '✓', ' ' ], [], by simp⟩
  have hs3 : strHas (pad (str "  " ++ [ '✖' ] ++ ' ' ::
      (issue.property ++ str ": " ++ issue.value)) 29 .left ++ ' ' ::
      pad ([ '✓' ] ++ ' ' :: jsOrStr issue.suggestion (str "Use responsive units"))
        (29 - 1) .left) (jsOrStr issue.suggestion (str "Use responsive units")) = true :=
    strHas_append_right _ _ _ (strHas_append_right [ ' ' ] _ _
      (strHas_pad_left _ (29 - 1) _ h2 hs1))
  have hC : strHas (generateStandardVisualization issue tl bc ac).ascii
      (jsOrStr issue.suggestion (str "Use responsive units")) = true :=
    strHas_joinNL _ _ _ hmemM (strHas_boxed _ _ hvm hs3)
  have hx1 : strHas (str "  " ++ [ '✖' ] ++ ' ' :: (issue.property ++ str ": " ++ issue.value))
      [ '✖' ] = true :=
    strHas_of_infix _ _ ⟨str "  ", ' ' :: (issue.property ++ str ": " ++ issue.value), by simp⟩
  have hG : strHas (generateStandardVisualization issue tl bc ac).ascii [ '✖' ] = true :=
    strHas_joinNL _ _ _ hmemM (strHas_boxed _ _ hvm
      (strHas_append_left _ _ _ (strHas_pad_left _ 29 _ h1 hx1)))
  have hy1 : strHas ([ '✓' ] ++ ' ' :: jsOrStr issue.suggestion (str "Use responsive units"))
      [ '✓' ] = true :=
    strHas_of_infix _ _ ⟨[], ' ' :: jsOrStr issue.suggestion (str "Use responsive units"),
      by simp⟩
  have hH : strHas (generateStandardVisualization issue tl bc ac).ascii [ '✓' ] = true :=
    strHas_joinNL _ _ _ hmemM (strHas_boxed _ _ hvm
      (strHas_append_right _ _ _ (strHas_append_right [ ' ' ] _ _
        (strHas_pad_left _ (29 - 1) _ h2 hy1))))
  have hbf : strHas ('│' :: (pad (str "  " ++ str "BEFORE") 29 .left ++ [ '→' ] ++
      pad (str "AFTER") (29 - 2) .left) ++ [ '│' ]) (str "BEFORE") = true := by decide
  have haf : strHas ('│' :: (pad (str "  " ++ str "BEFORE") 29 .left ++ [ '→' ] ++
      pad (str "AFTER") (29 - 2) .left) ++ [ '│' ]) (str "AFTER") = true := by decide
  refine ⟨hA, hB, hC, ?_, strHas_joinNL _ _ _ hmemL hbf, strHas_joinNL _ _ _ hmemL haf, hG, hH⟩
  intro hne
  have h := hC
  simp only [jsOrStr] at h
  rw [if_neg (by simpa [List.isEmpty_iff] using hne)] at h
  exact h

/-- Witness for C6 at a concrete issue whose texts fit their
columns. -/
theorem claim6_diagram_tokens_witness :
    strHas (generateStandardVisualization
      { type := str "fixed-dimensions", severity := str "critical", line := 12,
        selector := str ".card", property := str "width", value := str "500px",
        suggestion := str "Use max-width", category := str "other" }
      (str "Fixed Dimensions") [] []).ascii (str "500px") = true :=
  (claim6_diagram_tokens
    { type := str "fixed-dimensions", severity := str "critical", line := 12,
      selector := str ".card", property := str "width", value := str "500px",
      suggestion := str "Use max-width", category := str "other" }
    (str "Fixed Dimensions") [] [] (by decide) (by decide) (by decide)).2.1

/-- Counterexample to C6 as stated: the engine's own correction text
`Use relative units or max-width` (31 characters) is wider than the
AFTER column, so it is truncated and does not appear verbatim in the
diagram of a valid issue carrying it as suggestion. -/
theorem claim6_suggestion_counterexample :
    isValidIssue
      { type := some (str "fixed-dimensions"), severity := some (str "critical"),
        line := some 12, selector := some (str ".card"), property := some (str "width"),
        value := some (str "500px"),
        suggestion := some (str "Use relative units or max-width") } = true ∧
    strHas (generate
      { type := some (str "fixed-dimensions"), severity := some (str "critical"),
        line := some 12, selector := some (str ".card"), property := some (str "width"),
        value := some (str "500px"),
        suggestion := some (str "Use relative units or max-width") }).ascii
      (str "Use relative units or max-width") = false := by
  constructor <;> decide

/-- Claim C7: `AsciiVisualizer.generate` always returns a
`Visualization` and never propagates a generator exception: an invalid
input (any required field missing) yields the structured
`Invalid issue data` error diagram; a type with no registered generator
yields the one-line `visualization not available` fallback; a normally
returning generator's output is passed through; and a throwing
generator's exception message is caught and embedded in a
`Generation failed` error diagram. -/
theorem claim7_generate_contract
    (gens : Str → Option (VIssue → Except Str Visualization)) (issue : RawVIssue) :
    (isValidIssue issue = false →
       generateWith gens issue = generateErrorVisualization (str "Invalid issue data")) ∧
    (isValidIssue issue = true → gens (issue.type.getD []) = none →
       generateWith gens issue = generateFallback (issue.type.getD [])) ∧
    (∀ (g : VIssue → Except Str Visualization) (v : Visualization),
       isValidIssue issue = true → gens (issue.type.getD []) = some g →
       g (toVIssue issue) = Except.ok v → generateWith gens issue = v) ∧
    (∀ (g : VIssue → Except Str Visualization) (msg : Str),
       isValidIssue issue = true → gens (issue.type.getD []) = some g →
       g (toVIssue issue) = Except.error msg →
       generateWith gens issue =
         generateErrorVisualization (str "Generation failed: " ++ msg)) := by
  refine ⟨?_, ?_, ?_, ?_⟩
  · intro h
    simp [generateWith, h]
  · intro h1 h2
    simp [generateWith, h1, h2]
  · intro g v h1 h2 h3
    simp [generateWith, h1, h2, h3]
  · intro g msg h1 h2 h3
    simp [generateWith, h1, h2, h3]

/-- Claim C7: `AsciiVisualizer.generate` always returns a
`Visualization` and never propagates a generator exception: an invalid
input (any required field missing) yields the structured
`Invalid issue data` error diagram; a type with no registered generator
yields the one-line `visualization not available` fallback; a normally
returning generator's output is passed through; and a throwing
generator's exception message is caught and embedded in a
`Generation failed` error diagram. -/
theorem claim7_generate_contract_witness :
    generateWith builtinGens {} = generateErrorVisualization (str "Invalid issue data") ∧
    generateWith (fun _ => none) rawMystery = generateFallback (str "mystery") ∧
    generateWith (fun _ => some (fun _ => Except.error (str "boom"))) rawMystery =
      generateErrorVisualization (str "Generation failed: " ++ str "boom") :=
  ⟨(claim7_generate_contract builtinGens {}).1 (by decide),
   (claim7_generate_contract (fun _ => none) rawMystery).2.1 (by decide) rfl,
   (claim7_generate_contract (fun _ => some (fun _ => Except.error (str "boom")))
      rawMystery).2.2.2 _ (str "boom") (by decide) rfl rfl⟩

/-- Claim C8: `parseRules` is total — being a Lean function it
returns a rule list on every input, including malformed CSS — a rule
block without a matching closing brace is silently dropped, and an
unterminated `@media` block stops the block scan at end of string (the
extracted block spans the remaining input, and the parse still returns
without error). -/
theorem claim8_parser_recovery :
    (∀ raw : Str, ∃ rules : List Rule, parseRules raw = rules) ∧
    parseRules (str ".a \x7b width: 10px") = [] ∧
    extractMediaBlocks (str "@media (max-width: 600px) \x7b .b \x7b width: 5px; \x7d") =
      [{ full := str "@media (max-width: 600px) \x7b .b \x7b width: 5px; \x7d"
         condition := str "(max-width: 600px)"
         body := str " .b \x7b width: 5px; " }] ∧
    parseRules (str "@media (max-width: 600px) \x7b .b \x7b width: 5px; \x7d") = [] :=
  ⟨fun raw => ⟨parseRules raw, rfl⟩, by decide, by decide, by decide⟩

/-- Claim C9 (amended): both Issue-to-VisualizerIssue conversions are
driven by the fixed 18-entry lookup table from detector issue kinds to
diagram types.  For a mapped kind both conversions produce that diagram
type.  For an unmapped kind (such as `Layout property with !important`)
the stats-model conversion yields `none` so no diagram is produced — but
the engine's conversion substitutes the default type `fixed-dimensions`
instead of `null`, refuting the original claim for the engine's
conversion; see the counterexample. -/
theorem claim9_type_mapping :
    (∀ (i : Issue) (t : Str), lookupAssoc visualizerTypeMap i.issue = some t →
       (statsMapToVisualizerIssue i).map VIssue.type = some t ∧
       (engineMapToVisualizerIssue i).type = t) ∧
    (∀ i : Issue, lookupAssoc visualizerTypeMap i.issue = none →
       statsMapToVisualizerIssue i = none ∧
       (engineMapToVisualizerIssue i).type = str "fixed-dimensions") := by
  constructor
  · intro i t h
    constructor
    · unfold statsMapToVisualizerIssue statsTypeMap
      rw [lookupAssoc_append, lookupAssoc_map, h]
      rfl
    · unfold engineMapToVisualizerIssue
      rw [h]
      rfl
  · intro i h
    constructor
    · unfold statsMapToVisualizerIssue statsTypeMap
      rw [lookupAssoc_append, lookupAssoc_map, h]
      by_cases hc : str "Layout property with !important" = i.issue
      · simp [lookupAssoc, hc]
      · simp [lookupAssoc, hc]
    · unfold engineMapToVisualizerIssue
      rw [h]
      rfl

/-- Claim C9 (amended): both Issue-to-VisualizerIssue conversions are
driven by the fixed 18-entry lookup table from detector issue kinds to
diagram types.  For a mapped kind both conversions produce that diagram
type.  For an unmapped kind (such as `Layout property with !important`)
the stats-model conversion yields `none` so no diagram is produced — but
the engine's conversion substitutes the default type `fixed-dimensions`
instead of `null`, refuting the original claim for the engine's
conversion; see the counterexample. -/
theorem claim9_type_mapping_witness :
    statsMapToVisualizerIssue
      { issue := str "Layout property with !important"
        explanation := str "important overrides cascade"
        viewportImpact := str "none"
        severity := str "low"
        correction := str "avoid important" } = none :=
  (claim9_type_mapping.2
    { issue := str "Layout property with !important"
      explanation := str "important overrides cascade"
      viewportImpact := str "none"
      severity := str "low"
      correction := str "avoid important" } (by decide)).1

/-- Counterexample to C9 as stated: the `!important` issue kind is
unmapped, yet the engine's conversion returns the default diagram type
`fixed-dimensions` rather than `null`. -/
theorem claim9_default_substitution_counterexample :
    lookupAssoc visualizerTypeMap (str "Layout property with !important") = none ∧
    (engineMapToVisualizerIssue
      { issue := str "Layout property with !important"
        explanation := str "e"
        viewportImpact := str "v"
        severity := str "high"
        correction := str "c" }).type = str "fixed-dimensions" ∧
    statsMapToVisualizerIssue
      { issue := str "Layout property with !important"
        explanation := str "e"
        viewportImpact := str "v"
        severity := str "high"
        correction := str "c" } = none := by
  refine ⟨by decide, by decide, by decide⟩

/-- Claim C10: for the `less` and `sass` language ids, analysis takes
the text-fallback path, which never consults the configuration — the
result is literally `detectIssuesFromText` for every configuration — so
a `width: 10px` line is flagged even in pragmatic mode with a 320px
width threshold and even under a selector listed in
`ignoreSelectors`. -/
theorem claim10_text_fallback :
    (∀ (css : Str) (cfg : Config),
       detectIssues (str "less") css cfg = detectIssuesFromText css) ∧
    (∀ (css : Str) (cfg : Config),
       detectIssues (str "sass") css cfg = detectIssuesFromText css) ∧
    (∀ (css : Str) (cfg cfg2 : Config),
       detectIssues (str "less") css cfg = detectIssues (str "sass") css cfg2) ∧
    detectIssues (str "sass") (str ".ignored \x7b width: 10px; \x7d")
      { mode := str "pragmatic", fixedWidthThreshold := 320, fixedHeightThreshold := 320,
        fixedSpacingThreshold := 24, ignoreSelectors := [str "ignored"] } =
      [{ issue := str "Fixed width"
         explanation := str "Fixed pixel width reduces responsiveness"
         viewportImpact := str "Constrained layout on smaller viewports"
         severity := str "medium"
         correction := str "Use relative units or max-width"
         property := some (str "width")
         value := some (str "width: 10px")
         lineNumber := some 0
         startChar := some 18
         endChar := some 22 }] :=
  ⟨fun css cfg => rfl, fun css cfg => rfl, fun css cfg cfg2 => rfl, by decide⟩

end BMS
